import Mathlib

/-!
Shallow embedding of the districtsim repository (hexagonal settlement grid
with adjacency-bonus engine) and verification of its specification claims.

Sources embedded:
* `src/core/types.ts`    — enumerations, `Yields`, `HexCoord`, `AdjacencyBonus`
* `src/core/gameData.ts` — static rule tables (`TERRAIN_DATA`, `FEATURE_DATA`,
  `RESOURCE_DATA`, `DISTRICT_DATA`); the wonder tables are omitted because no
  modelled operation reads them
* `src/core/Tile.ts`     — the `Tile` class, its validated mutators, computed
  properties and serialization
* `src/core/GameMap.ts`  — `HexUtils` and the `GameMap` class
* the adjacency engine (`AdjacencyEngine`)

Modelling conventions:
* TypeScript `number`s are `Int` (all arithmetic in the core is integral),
  except loop counters / list lengths which are `Nat`.
* A thrown `Error` is an `Except (String × Tile)` value whose payload carries
  the tile state at the moment of the throw, so that "mutators are
  all-or-nothing" is a real statement about the order of checks and writes
  in the source, not an artifact of the embedding.
* The JS `Map<string, Tile>` keyed by `coordToKey(coord) = "q,r"` is modelled
  as an insertion-ordered association list keyed by the coordinate itself;
  `coordToKey`/`keyToCoord` form a bijection between coordinates and keys, so
  nothing is lost.
* The JS `Set<number>` of river edges is an insertion-ordered duplicate-free
  list (`setAdd` / `setDelete` mirror `Set.add` / `Set.delete`, and
  `new Set(array)` is `jsSetOfList`).
-/

namespace DistrictSim

-- ===========================================================================
-- Enumerations (src/core/types.ts)
-- ===========================================================================

inductive TerrainType where
  | GRASS | PLAINS | DESERT | TUNDRA | SNOW | COAST | OCEAN
deriving DecidableEq, Repr

inductive TerrainModifier where
  | FLAT | HILLS | MOUNTAIN
deriving DecidableEq, Repr

inductive FeatureType where
  | NONE | WOODS | RAINFOREST | MARSH | FLOODPLAINS | OASIS | REEF | ICE
  | VOLCANO | GEOTHERMAL_FISSURE
deriving DecidableEq, Repr

inductive ResourceCategory where
  | NONE | BONUS | LUXURY | STRATEGIC
deriving DecidableEq, Repr

inductive ResourceType where
  | NONE
  | BANANAS | CATTLE | COPPER | CRABS | DEER | FISH | MAIZE | RICE | SHEEP
  | STONE | WHEAT
  | AMBER | CITRUS | COCOA | COFFEE | COTTON | DIAMONDS | DYES | FURS
  | GYPSUM | HONEY | INCENSE | IVORY | JADE | MARBLE | MERCURY | PEARLS
  | SALT | SILK | SILVER | SPICES | SUGAR | TEA | TOBACCO | TRUFFLES
  | WHALES | WINE
  | HORSES | IRON | NITER | COAL | OIL | ALUMINUM | URANIUM
deriving DecidableEq, Repr

inductive DistrictType where
  | NONE | CITY_CENTER | HOLY_SITE | CAMPUS | THEATER_SQUARE | COMMERCIAL_HUB
  | HARBOR | INDUSTRIAL_ZONE | ENTERTAINMENT_COMPLEX | WATER_PARK | AQUEDUCT
  | NEIGHBORHOOD | SPACEPORT | AERODROME | ENCAMPMENT | GOVERNMENT_PLAZA
  | DIPLOMATIC_QUARTER | PRESERVE | DAM | CANAL
deriving DecidableEq, Repr

inductive WonderType where
  | NONE
  | STONEHENGE | PYRAMIDS | HANGING_GARDENS | ORACLE | GREAT_BATH
  | TEMPLE_OF_ARTEMIS | ETEMENANKI
  | COLOSSEUM | COLOSSUS | GREAT_LIBRARY | GREAT_LIGHTHOUSE | JEBEL_BARKAL
  | MAHABODHI_TEMPLE | MAUSOLEUM_AT_HALICARNASSUS | PETRA | TERRACOTTA_ARMY
  | APADANA | STATUE_OF_ZEUS
  | ALHAMBRA | ANGKOR_WAT | CHICHEN_ITZA | HAGIA_SOPHIA | KILWA_KISIWANI
  | KOTOKU_IN | MEENAKSHI_TEMPLE | MONT_ST_MICHEL | UNIVERSIDAD_DE_SALAMANCA
  | FORBIDDEN_CITY | GREAT_ZIMBABWE | HUEY_TEOCALLI | POTALA_PALACE
  | ST_BASILS_CATHEDRAL | TAJ_MAHAL | TORRE_DE_BELEM | VENETIAN_ARSENAL
  | BIG_BEN | BOLSHOI_THEATRE | HERMITAGE | OXFORD_UNIVERSITY | RUHR_VALLEY
  | STATUE_OF_LIBERTY
  | BROADWAY | CRISTO_REDENTOR | EIFFEL_TOWER | GOLDEN_GATE_BRIDGE
  | PANAMA_CANAL
  | BIOSPHERE | ESTADIO_DO_MARACANA | SYDNEY_OPERA_HOUSE
  | AMUNDSEN_SCOTT_RESEARCH_STATION
deriving DecidableEq, Repr

inductive NaturalWonderType where
  | NONE
  | CLIFFS_OF_DOVER | CRATER_LAKE | DEAD_SEA | EVEREST | GALAPAGOS_ISLANDS
  | GREAT_BARRIER_REEF | KILIMANJARO | PANTANAL | PIOPIOTAHI
  | TORRES_DEL_PAINE | TSINGY_DE_BEMARAHA | YOSEMITE | ZHANGYE_DANXIA
  | BERMUDA_TRIANGLE | CHOCOLOTE_HILLS | DELICATE_ARCH | EYE_OF_THE_SAHARA
  | GIANTS_CAUSEWAY | GOBUSTAN | HA_LONG_BAY | IK_KIL | LAKE_RETBA
  | MATO_TIPILA | MATTERHORN | PAMUKKALE | RORAIMA | SAHARA_EL_BEYDA
  | UBSUNUR_HOLLOW | ULURU | VESUVIUS | VINLAND | WHITE_DESERT
deriving DecidableEq, Repr

inductive ImprovementType where
  | NONE | FARM | MINE | QUARRY | LUMBER_MILL | PASTURE | PLANTATION | CAMP
  | FISHING_BOATS | OIL_WELL | OFFSHORE_OIL_RIG
deriving DecidableEq, Repr

-- ===========================================================================
-- Yields and coordinates (src/core/types.ts)
-- ===========================================================================

structure Yields where
  food : Int
  production : Int
  gold : Int
  science : Int
  culture : Int
  faith : Int
deriving DecidableEq, Repr

def EMPTY_YIELDS : Yields := ⟨0, 0, 0, 0, 0, 0⟩

/-- Models `keyof Yields`: the name of one of the six yield fields. -/
inductive YieldType where
  | food | production | gold | science | culture | faith
deriving DecidableEq, Repr

def Yields.get (y : Yields) : YieldType → Int
  | .food => y.food
  | .production => y.production
  | .gold => y.gold
  | .science => y.science
  | .culture => y.culture
  | .faith => y.faith

/-- Models `y[k] += n` on a `Yields` record. -/
def Yields.addAt (y : Yields) (k : YieldType) (n : Int) : Yields :=
  match k with
  | .food => { y with food := y.food + n }
  | .production => { y with production := y.production + n }
  | .gold => { y with gold := y.gold + n }
  | .science => { y with science := y.science + n }
  | .culture => { y with culture := y.culture + n }
  | .faith => { y with faith := y.faith + n }

structure HexCoord where
  q : Int
  r : Int
deriving DecidableEq, Repr

structure CubeCoord where
  q : Int
  r : Int
  s : Int
deriving DecidableEq, Repr

structure AdjacencyBonus where
  districtType : DistrictType
  yieldType : YieldType
  amount : Int
  source : String
deriving DecidableEq, Repr

-- ===========================================================================
-- Static rule tables (src/core/gameData.ts)
-- ===========================================================================

structure TerrainInfo where
  name : String
  yields : Yields
  movementCost : Int
  isWater : Bool
deriving DecidableEq, Repr

def TERRAIN_DATA : TerrainType → TerrainInfo
  | .GRASS => ⟨"Grassland", { EMPTY_YIELDS with food := 2 }, 1, false⟩
  | .PLAINS => ⟨"Plains", { EMPTY_YIELDS with food := 1, production := 1 }, 1, false⟩
  | .DESERT => ⟨"Desert", EMPTY_YIELDS, 1, false⟩
  | .TUNDRA => ⟨"Tundra", { EMPTY_YIELDS with food := 1 }, 1, false⟩
  | .SNOW => ⟨"Snow", EMPTY_YIELDS, 1, false⟩
  | .COAST => ⟨"Coast", { EMPTY_YIELDS with food := 1, gold := 1 }, 1, true⟩
  | .OCEAN => ⟨"Ocean", { EMPTY_YIELDS with food := 1 }, 1, true⟩

structure FeatureInfo where
  name : String
  yields : Yields
  validTerrains : List TerrainType
  removable : Bool
  appealModifier : Int
deriving DecidableEq, Repr

def FEATURE_DATA : FeatureType → FeatureInfo
  | .NONE => ⟨"None", EMPTY_YIELDS, [], false, 0⟩
  | .WOODS => ⟨"Woods", { EMPTY_YIELDS with production := 1 },
      [.GRASS, .PLAINS, .TUNDRA], true, 1⟩
  | .RAINFOREST => ⟨"Rainforest", { EMPTY_YIELDS with food := 1 },
      [.PLAINS], true, -1⟩
  | .MARSH => ⟨"Marsh", { EMPTY_YIELDS with food := 1 }, [.GRASS], true, -1⟩
  | .FLOODPLAINS => ⟨"Floodplains", { EMPTY_YIELDS with food := 3 },
      [.DESERT, .GRASS, .PLAINS], false, -1⟩
  | .OASIS => ⟨"Oasis", { EMPTY_YIELDS with food := 3, gold := 1 },
      [.DESERT], false, 1⟩
  | .REEF => ⟨"Reef", { EMPTY_YIELDS with food := 1, production := 1 },
      [.COAST], false, 0⟩
  | .ICE => ⟨"Ice", EMPTY_YIELDS, [.COAST, .OCEAN], false, 0⟩
  | .VOLCANO => ⟨"Volcano", EMPTY_YIELDS,
      [.GRASS, .PLAINS, .DESERT, .TUNDRA, .SNOW], false, 0⟩
  | .GEOTHERMAL_FISSURE => ⟨"Geothermal Fissure",
      { EMPTY_YIELDS with science := 1 },
      [.GRASS, .PLAINS, .DESERT, .TUNDRA, .SNOW], false, -1⟩

structure ResourceInfo where
  name : String
  category : ResourceCategory
  yields : Yields
  validTerrains : List TerrainType
  validFeatures : List FeatureType
deriving DecidableEq, Repr

def RESOURCE_DATA : ResourceType → ResourceInfo
  | .NONE => ⟨"None", .NONE, EMPTY_YIELDS, [], []⟩
  | .BANANAS => ⟨"Bananas", .BONUS, { EMPTY_YIELDS with food := 1 },
      [.PLAINS], [.RAINFOREST]⟩
  | .CATTLE => ⟨"Cattle", .BONUS, { EMPTY_YIELDS with food := 1 },
      [.GRASS], [.NONE]⟩
  | .COPPER => ⟨"Copper", .BONUS, { EMPTY_YIELDS with gold := 2 },
      [.GRASS, .PLAINS, .DESERT, .TUNDRA], [.NONE]⟩
  | .CRABS => ⟨"Crabs", .BONUS, { EMPTY_YIELDS with gold := 2 },
      [.COAST], [.NONE]⟩
  | .DEER => ⟨"Deer", .BONUS, { EMPTY_YIELDS with production := 1 },
      [.TUNDRA], [.WOODS]⟩
  | .FISH => ⟨"Fish", .BONUS, { EMPTY_YIELDS with food := 1 },
      [.COAST, .OCEAN], [.NONE]⟩
  | .MAIZE => ⟨"Maize", .BONUS, { EMPTY_YIELDS with gold := 2 },
      [.GRASS, .PLAINS], [.NONE]⟩
  | .RICE => ⟨"Rice", .BONUS, { EMPTY_YIELDS with food := 1 },
      [.GRASS], [.MARSH]⟩
  | .SHEEP => ⟨"Sheep", .BONUS, { EMPTY_YIELDS with food := 1 },
      [.GRASS, .PLAINS, .DESERT, .TUNDRA], [.NONE]⟩
  | .STONE => ⟨"Stone", .BONUS, { EMPTY_YIELDS with production := 1 },
      [.GRASS, .PLAINS, .DESERT, .TUNDRA], [.NONE]⟩
  | .WHEAT => ⟨"Wheat", .BONUS, { EMPTY_YIELDS with food := 1 },
      [.PLAINS], [.FLOODPLAINS]⟩
  | .AMBER => ⟨"Amber", .LUXURY, { EMPTY_YIELDS with gold := 3 },
      [.GRASS, .PLAINS], [.WOODS]⟩
  | .CITRUS => ⟨"Citrus", .LUXURY, { EMPTY_YIELDS with food := 2 },
      [.GRASS, .PLAINS], [.NONE]⟩
  | .COCOA => ⟨"Cocoa", .LUXURY, { EMPTY_YIELDS with gold := 3 },
      [.PLAINS], [.RAINFOREST]⟩
  | .COFFEE => ⟨"Coffee", .LUXURY, { EMPTY_YIELDS with culture := 1 },
      [.GRASS, .PLAINS], [.NONE]⟩
  | .COTTON => ⟨"Cotton", .LUXURY, { EMPTY_YIELDS with gold := 3 },
      [.GRASS, .PLAINS], [.NONE]⟩
  | .DIAMONDS => ⟨"Diamonds", .LUXURY, { EMPTY_YIELDS with gold := 3 },
      [.GRASS, .PLAINS, .DESERT, .TUNDRA], [.RAINFOREST]⟩
  | .DYES => ⟨"Dyes", .LUXURY, { EMPTY_YIELDS with faith := 1 },
      [.PLAINS], [.RAINFOREST, .WOODS]⟩
  | .FURS => ⟨"Furs", .LUXURY, { EMPTY_YIELDS with food := 1, gold := 1 },
      [.TUNDRA], [.WOODS]⟩
  | .GYPSUM => ⟨"Gypsum", .LUXURY, { EMPTY_YIELDS with production := 1, gold := 1 },
      [.PLAINS, .DESERT], [.NONE]⟩
  | .HONEY => ⟨"Honey", .LUXURY, { EMPTY_YIELDS with food := 2 },
      [.GRASS, .PLAINS], [.NONE]⟩
  | .INCENSE => ⟨"Incense", .LUXURY, { EMPTY_YIELDS with faith := 1 },
      [.PLAINS, .DESERT], [.NONE]⟩
  | .IVORY => ⟨"Ivory", .LUXURY, { EMPTY_YIELDS with production := 1, gold := 1 },
      [.PLAINS, .DESERT], [.NONE]⟩
  | .JADE => ⟨"Jade", .LUXURY, { EMPTY_YIELDS with culture := 1 },
      [.GRASS, .PLAINS, .TUNDRA], [.WOODS]⟩
  | .MARBLE => ⟨"Marble", .LUXURY, { EMPTY_YIELDS with culture := 1 },
      [.GRASS, .PLAINS], [.NONE]⟩
  | .MERCURY => ⟨"Mercury", .LUXURY, { EMPTY_YIELDS with science := 1 },
      [.PLAINS], [.NONE]⟩
  | .PEARLS => ⟨"Pearls", .LUXURY, { EMPTY_YIELDS with faith := 1 },
      [.COAST], [.NONE]⟩
  | .SALT => ⟨"Salt", .LUXURY, { EMPTY_YIELDS with food := 1, gold := 1 },
      [.PLAINS, .DESERT, .TUNDRA], [.NONE]⟩
  | .SILK => ⟨"Silk", .LUXURY, { EMPTY_YIELDS with culture := 1 },
      [.GRASS, .PLAINS], [.WOODS]⟩
  | .SILVER => ⟨"Silver", .LUXURY, { EMPTY_YIELDS with gold := 3 },
      [.DESERT, .TUNDRA], [.NONE]⟩
  | .SPICES => ⟨"Spices", .LUXURY, { EMPTY_YIELDS with food := 2 },
      [.PLAINS], [.RAINFOREST]⟩
  | .SUGAR => ⟨"Sugar", .LUXURY, { EMPTY_YIELDS with food := 2 },
      [.GRASS], [.FLOODPLAINS, .MARSH]⟩
  | .TEA => ⟨"Tea", .LUXURY, { EMPTY_YIELDS with culture := 1 },
      [.GRASS, .PLAINS], [.NONE]⟩
  | .TOBACCO => ⟨"Tobacco", .LUXURY, { EMPTY_YIELDS with faith := 1 },
      [.GRASS, .PLAINS], [.NONE]⟩
  | .TRUFFLES => ⟨"Truffles", .LUXURY, { EMPTY_YIELDS with gold := 3 },
      [.GRASS, .PLAINS, .TUNDRA], [.RAINFOREST, .MARSH, .WOODS]⟩
  | .WHALES => ⟨"Whales", .LUXURY, { EMPTY_YIELDS with gold := 1, production := 1 },
      [.COAST, .OCEAN], [.NONE]⟩
  | .WINE => ⟨"Wine", .LUXURY, { EMPTY_YIELDS with food := 1, gold := 1 },
      [.GRASS, .PLAINS], [.NONE]⟩
  | .HORSES => ⟨"Horses", .STRATEGIC, { EMPTY_YIELDS with food := 1, production := 1 },
      [.GRASS, .PLAINS, .TUNDRA], [.NONE]⟩
  | .IRON => ⟨"Iron", .STRATEGIC, { EMPTY_YIELDS with science := 1 },
      [.GRASS, .PLAINS, .DESERT, .TUNDRA, .SNOW], [.NONE]⟩
  | .NITER => ⟨"Niter", .STRATEGIC, { EMPTY_YIELDS with food := 1, production := 1 },
      [.GRASS, .PLAINS, .DESERT, .TUNDRA], [.NONE]⟩
  | .COAL => ⟨"Coal", .STRATEGIC, { EMPTY_YIELDS with production := 2 },
      [.GRASS, .PLAINS], [.NONE]⟩
  | .OIL => ⟨"Oil", .STRATEGIC, { EMPTY_YIELDS with production := 3 },
      [.DESERT, .TUNDRA, .SNOW, .COAST, .OCEAN], [.RAINFOREST, .MARSH]⟩
  | .ALUMINUM => ⟨"Aluminum", .STRATEGIC, { EMPTY_YIELDS with science := 1 },
      [.PLAINS, .DESERT], [.NONE]⟩
  | .URANIUM => ⟨"Uranium", .STRATEGIC, { EMPTY_YIELDS with production := 2 },
      [.GRASS, .PLAINS, .DESERT, .TUNDRA, .SNOW],
      [.RAINFOREST, .MARSH, .WOODS]⟩

structure DistrictInfo where
  name : String
  baseYields : Yields
  primaryYieldType : Option YieldType
  requiresCoast : Bool
  requiresLand : Bool
  canBuildOnHills : Bool
  isSpecialty : Bool
  description : String
deriving DecidableEq, Repr

def DISTRICT_DATA : DistrictType → DistrictInfo
  | .NONE => ⟨"None", EMPTY_YIELDS, none, false, false, true, false, ""⟩
  | .CITY_CENTER => ⟨"City Center", { EMPTY_YIELDS with food := 2, production := 1 },
      none, false, true, true, false, "The heart of your city."⟩
  | .HOLY_SITE => ⟨"Holy Site", EMPTY_YIELDS, some .faith, false, true, true, true,
      "+1 Faith for each adjacent Mountain. +1 Faith for every 2 adjacent Woods and district tiles."⟩
  | .CAMPUS => ⟨"Campus", EMPTY_YIELDS, some .science, false, true, true, true,
      "+1 Science for each adjacent Mountain. +1 Science for every 2 adjacent Rainforest and district tiles."⟩
  | .THEATER_SQUARE => ⟨"Theater Square", EMPTY_YIELDS, some .culture, false, true, true, true,
      "+1 Culture for each adjacent Wonder. +1 Culture for every 2 adjacent district tiles."⟩
  | .COMMERCIAL_HUB => ⟨"Commercial Hub", EMPTY_YIELDS, some .gold, false, true, true, true,
      "+2 Gold for each adjacent River. +2 Gold for each adjacent Harbor. +1 Gold for every 2 adjacent district tiles."⟩
  | .HARBOR => ⟨"Harbor", EMPTY_YIELDS, some .gold, true, false, false, true,
      "+1 Gold for each adjacent Coastal resource. +2 Gold for each adjacent City Center. +1 Gold for every 2 adjacent district tiles."⟩
  | .INDUSTRIAL_ZONE => ⟨"Industrial Zone", EMPTY_YIELDS, some .production, false, true, true, true,
      "+1 Production for each adjacent Mine. +1 Production for each adjacent Quarry. +2 Production for each adjacent Aqueduct, Canal, or Dam."⟩
  | .ENTERTAINMENT_COMPLEX => ⟨"Entertainment Complex", EMPTY_YIELDS, none, false, true, true, true,
      "Provides Amenities to your city."⟩
  | .WATER_PARK => ⟨"Water Park", EMPTY_YIELDS, none, true, false, false, true,
      "Coastal entertainment district providing Amenities."⟩
  | .AQUEDUCT => ⟨"Aqueduct", EMPTY_YIELDS, none, false, true, false, false,
      "Must be built adjacent to the City Center and a source of fresh water."⟩
  | .NEIGHBORHOOD => ⟨"Neighborhood", EMPTY_YIELDS, none, false, true, true, false,
      "Provides Housing based on Appeal."⟩
  | .SPACEPORT => ⟨"Spaceport", EMPTY_YIELDS, none, false, true, false, true,
      "Allows construction of Space Race projects."⟩
  | .AERODROME => ⟨"Aerodrome", EMPTY_YIELDS, none, false, true, false, true,
      "Allows construction of air units."⟩
  | .ENCAMPMENT => ⟨"Encampment", EMPTY_YIELDS, none, false, true, true, true,
      "Military district. Cannot be adjacent to City Center."⟩
  | .GOVERNMENT_PLAZA => ⟨"Government Plaza", EMPTY_YIELDS, none, false, true, true, true,
      "Can only be built once. +1 adjacency bonus to all adjacent districts."⟩
  | .DIPLOMATIC_QUARTER => ⟨"Diplomatic Quarter", EMPTY_YIELDS, none, false, true, true, true,
      "Diplomatic district."⟩
  | .PRESERVE => ⟨"Preserve", EMPTY_YIELDS, none, false, true, true, true,
      "Cannot be adjacent to any other district. Increases Appeal of adjacent tiles."⟩
  | .DAM => ⟨"Dam", EMPTY_YIELDS, none, false, true, false, false,
      "Must be built on Floodplains. Prevents flooding and provides bonus to Industrial Zones."⟩
  | .CANAL => ⟨"Canal", { EMPTY_YIELDS with gold := 2 }, some .gold, false, true, false, false,
      "Must be built between City Center and water, or between two water tiles."⟩

-- ===========================================================================
-- JS Set<number> helpers (insertion-ordered, duplicate-free lists)
-- ===========================================================================

/-- Models `Set.add`: a no-op when the element is present, otherwise appended. -/
def setAdd (l : List Int) (e : Int) : List Int :=
  if e ∈ l then l else l ++ [e]

/-- Models `Set.delete`: removes the element, preserving the order of the rest. -/
def setDelete (l : List Int) (e : Int) : List Int :=
  l.filter (fun x => x ≠ e)

/-- Models `new Set(array)`: iterate the array, `add`ing each element. -/
def jsSetOfList (l : List Int) : List Int :=
  l.foldl setAdd []

-- ===========================================================================
-- Tile (src/core/Tile.ts)
-- ===========================================================================

structure Tile where
  coord : HexCoord
  terrain : TerrainType
  modifier : TerrainModifier
  feature : FeatureType
  resource : ResourceType
  district : DistrictType
  wonder : WonderType
  naturalWonder : NaturalWonderType
  improvement : ImprovementType
  riverEdges : List Int
  ownerCityId : Option String
  isCityCenter : Bool
deriving DecidableEq, Repr

/-- Models `new Tile(coord)` with the class field initializers. -/
def newTile (coord : HexCoord) : Tile :=
  { coord := coord
    terrain := .GRASS
    modifier := .FLAT
    feature := .NONE
    resource := .NONE
    district := .NONE
    wonder := .NONE
    naturalWonder := .NONE
    improvement := .NONE
    riverEdges := []
    ownerCityId := none
    isCityCenter := false }

/-!
Mutators. A TypeScript mutator either returns the updated tile or throws; a
throw is modelled as `Except.error (message, tile-at-throw-time)`, translated
statement by statement so that the tile carried by the error is exactly the
state the object holds when the exception propagates.
-/

def Tile.setTerrain (t : Tile) (terrain : TerrainType)
    (modifier : TerrainModifier) : Except (String × Tile) Tile :=
  if modifier = .MOUNTAIN ∧ (terrain = .COAST ∨ terrain = .OCEAN) then
    .error ("Mountains cannot be placed on water tiles", t)
  else if modifier = .HILLS ∧ (terrain = .COAST ∨ terrain = .OCEAN) then
    .error ("Hills cannot be placed on water tiles", t)
  else
    .ok { t with terrain := terrain, modifier := modifier }

def Tile.setFeature (t : Tile) (feature : FeatureType) :
    Except (String × Tile) Tile :=
  if feature ≠ .NONE ∧ t.terrain ∉ (FEATURE_DATA feature).validTerrains then
    .error ((FEATURE_DATA feature).name ++ " cannot be placed on " ++
      (TERRAIN_DATA t.terrain).name, t)
  else
    .ok { t with feature := feature }

def Tile.setResource (t : Tile) (resource : ResourceType) : Tile :=
  { t with resource := resource }

def Tile.setDistrict (t : Tile) (district : DistrictType) :
    Except (String × Tile) Tile :=
  if t.modifier = .MOUNTAIN ∧ district ≠ .NONE then
    .error ("Districts cannot be placed on mountains", t)
  else if (t.terrain = .COAST ∨ t.terrain = .OCEAN) ∧ district ≠ .NONE ∧
      district ≠ .HARBOR ∧ district ≠ .WATER_PARK then
    .error ("Only Harbor and Water Park can be placed on water", t)
  else if district ≠ .NONE then
    .ok { t with district := district, improvement := .NONE, feature := .NONE }
  else
    .ok { t with district := district }

def Tile.setWonder (t : Tile) (wonder : WonderType) : Tile :=
  if wonder ≠ .NONE then
    { t with wonder := wonder, improvement := .NONE }
  else
    { t with wonder := wonder }

def Tile.setNaturalWonder (t : Tile) (naturalWonder : NaturalWonderType) : Tile :=
  { t with naturalWonder := naturalWonder }

def Tile.setImprovement (t : Tile) (improvement : ImprovementType) :
    Except (String × Tile) Tile :=
  if t.district ≠ .NONE ∨ t.wonder ≠ .NONE then
    .error ("Cannot place improvements on districts or wonders", t)
  else
    .ok { t with improvement := improvement }

def Tile.addRiverEdge (t : Tile) (edge : Int) : Except (String × Tile) Tile :=
  if edge < 0 ∨ edge > 5 then
    .error ("River edge must be between 0 and 5", t)
  else
    .ok { t with riverEdges := setAdd t.riverEdges edge }

def Tile.removeRiverEdge (t : Tile) (edge : Int) : Tile :=
  { t with riverEdges := setDelete t.riverEdges edge }

def Tile.setOwner (t : Tile) (cityId : Option String)
    (isCityCenter : Bool) : Tile :=
  let t' := { t with ownerCityId := cityId, isCityCenter := isCityCenter }
  if isCityCenter then { t' with district := .CITY_CENTER } else t'

-- Computed properties (never cached, recomputed from current fields).

def Tile.isWater (t : Tile) : Bool :=
  t.terrain = .COAST ∨ t.terrain = .OCEAN

def Tile.isLand (t : Tile) : Bool :=
  !t.isWater

def Tile.isPassable (t : Tile) : Bool :=
  t.modifier ≠ .MOUNTAIN ∧ t.naturalWonder = .NONE

def Tile.hasRiver (t : Tile) : Bool :=
  t.riverEdges.length > 0

def Tile.isHill (t : Tile) : Bool :=
  t.modifier = .HILLS

def Tile.isMountain (t : Tile) : Bool :=
  t.modifier = .MOUNTAIN

def Tile.hasDistrict (t : Tile) : Bool :=
  t.district ≠ .NONE

def Tile.hasWonder (t : Tile) : Bool :=
  t.wonder ≠ .NONE

def Tile.hasNaturalWonder (t : Tile) : Bool :=
  t.naturalWonder ≠ .NONE

def Tile.resourceCategory (t : Tile) : ResourceCategory :=
  if t.resource = .NONE then .NONE else (RESOURCE_DATA t.resource).category

/-- Models `get baseYields()`: starts from a copy of `EMPTY_YIELDS` and performs
the source's `+=` updates; note the source adds only the `food`, `production`
and `gold` components of each table entry. -/
def Tile.baseYields (t : Tile) : Yields :=
  let yields := EMPTY_YIELDS
  let terrainData := TERRAIN_DATA t.terrain
  let yields := { yields with
    food := yields.food + terrainData.yields.food
    production := yields.production + terrainData.yields.production
    gold := yields.gold + terrainData.yields.gold }
  let yields :=
    if t.modifier = .HILLS then
      { yields with production := yields.production + 1 }
    else yields
  let featureData := FEATURE_DATA t.feature
  let yields := { yields with
    food := yields.food + featureData.yields.food
    production := yields.production + featureData.yields.production
    gold := yields.gold + featureData.yields.gold }
  let resourceData := RESOURCE_DATA t.resource
  let yields := { yields with
    food := yields.food + resourceData.yields.food
    production := yields.production + resourceData.yields.production
    gold := yields.gold + resourceData.yields.gold }
  yields

-- Serialization (Tile.toJSON / Tile.fromJSON).

structure TileData where
  coord : HexCoord
  terrain : TerrainType
  modifier : TerrainModifier
  feature : FeatureType
  resource : ResourceType
  district : DistrictType
  wonder : WonderType
  naturalWonder : NaturalWonderType
  improvement : ImprovementType
  riverEdges : List Int
  ownerCityId : Option String
  isCityCenter : Bool
deriving DecidableEq, Repr

def Tile.toJSON (t : Tile) : TileData :=
  { coord := t.coord
    terrain := t.terrain
    modifier := t.modifier
    feature := t.feature
    resource := t.resource
    district := t.district
    wonder := t.wonder
    naturalWonder := t.naturalWonder
    improvement := t.improvement
    riverEdges := t.riverEdges
    ownerCityId := t.ownerCityId
    isCityCenter := t.isCityCenter }

def Tile.fromJSON (data : TileData) : Tile :=
  { coord := data.coord
    terrain := data.terrain
    modifier := data.modifier
    feature := data.feature
    resource := data.resource
    district := data.district
    wonder := data.wonder
    naturalWonder := data.naturalWonder
    improvement := data.improvement
    riverEdges := jsSetOfList data.riverEdges
    ownerCityId := data.ownerCityId
    isCityCenter := data.isCityCenter }

-- ===========================================================================
-- HexUtils (src/core/GameMap.ts)
-- ===========================================================================

/-- Integers `lo, lo+1, …, hi-1` — models `for (let i = lo; i < hi; i++)`. -/
def intRange (lo hi : Int) : List Int :=
  (List.range (hi - lo).toNat).map (fun (i : Nat) => lo + (i : Int))

namespace HexUtils

def axialToCube (coord : HexCoord) : CubeCoord :=
  ⟨coord.q, coord.r, -coord.q - coord.r⟩

def cubeToAxial (coord : CubeCoord) : HexCoord :=
  ⟨coord.q, coord.r⟩

/-- Direction deltas, index 0 = East, counter-clockwise. -/
def getNeighbors (coord : HexCoord) : List HexCoord :=
  [(1, 0), (0, 1), (-1, 1), (-1, 0), (0, -1), (1, -1)].map
    (fun d => ⟨coord.q + d.1, coord.r + d.2⟩)

def distance (a b : HexCoord) : Int :=
  let cubeA := axialToCube a
  let cubeB := axialToCube b
  max (max (cubeA.q - cubeB.q).natAbs (cubeA.r - cubeB.r).natAbs)
    (cubeA.s - cubeB.s).natAbs

/-- Both source loops are inclusive on their upper bound. -/
def getHexesInRange (center : HexCoord) (range : Nat) : List HexCoord :=
  (intRange (-(range : Int)) ((range : Int) + 1)).flatMap (fun q =>
    (intRange (max (-(range : Int)) (-q - range))
        (min (range : Int) (-q + range) + 1)).map
      (fun r => ⟨center.q + q, center.r + r⟩))

end HexUtils

-- ===========================================================================
-- GameMap (src/core/GameMap.ts)
-- ===========================================================================

/-!
The tile collection is a JS `Map<string, Tile>` keyed by
`coordToKey(coord) = "q,r"`; since that key function is a bijection between
coordinates and key strings, the map is modelled as an insertion-ordered
association list keyed by the coordinate directly. `mapSet` is `Map.set`
(replace in place, or append a new binding) and `mapGet` is `Map.get`.
-/

def mapSet (m : List (HexCoord × Tile)) (k : HexCoord) (v : Tile) :
    List (HexCoord × Tile) :=
  match m with
  | [] => [(k, v)]
  | (k', v') :: rest =>
    if k' = k then (k, v) :: rest else (k', v') :: mapSet rest k v

def mapGet (m : List (HexCoord × Tile)) (k : HexCoord) : Option Tile :=
  match m with
  | [] => none
  | (k', v') :: rest => if k' = k then some v' else mapGet rest k

structure GameMap where
  width : Nat
  height : Nat
  name : String
  tiles : List (HexCoord × Tile)
deriving DecidableEq, Repr

/-- Coordinates produced by `initializeEmptyMap`, in generation order: for each
row `r` in `[0, height)` with `qOffset = Math.floor(r/2)`, the columns
`q ∈ [-qOffset, width - qOffset)`. -/
def initCoords (width height : Nat) : List HexCoord :=
  (List.range height).flatMap (fun r =>
    let qOffset : Int := (r : Int) / 2
    (intRange (-qOffset) ((width : Int) - qOffset)).map
      (fun q => ⟨q, (r : Int)⟩))

/-- Models `initializeEmptyMap`: `tiles.set(coordToKey(coord), new Tile(coord))`
for every generated coordinate. -/
def initTiles (width height : Nat) : List (HexCoord × Tile) :=
  (initCoords width height).foldl (fun m coord => mapSet m coord (newTile coord)) []

/-- Models `new GameMap(width, height, name)`. -/
def GameMap.create (width height : Nat) (name : String) : GameMap :=
  ⟨width, height, name, initTiles width height⟩

def GameMap.getTile (map : GameMap) (coord : HexCoord) : Option Tile :=
  mapGet map.tiles coord

def GameMap.getAllTiles (map : GameMap) : List Tile :=
  map.tiles.map (fun p => p.2)

def GameMap.getNeighborTiles (map : GameMap) (coord : HexCoord) : List Tile :=
  (HexUtils.getNeighbors coord).filterMap map.getTile

def GameMap.getTilesInRange (map : GameMap) (coord : HexCoord) (range : Nat) :
    List Tile :=
  (HexUtils.getHexesInRange coord range).filterMap map.getTile

structure GameMapData where
  version : Int
  name : String
  width : Nat
  height : Nat
  tiles : List TileData
deriving DecidableEq, Repr

def GameMap.toJSON (map : GameMap) : GameMapData :=
  ⟨1, map.name, map.width, map.height, map.getAllTiles.map Tile.toJSON⟩

/-- Models `GameMap.fromJSON`: the constructor's freshly initialized tile map is
immediately cleared (`map.tiles.clear()`), so the rebuild starts from the empty
map; every field of `data` except `version` is consumed, and no field of any
tile record is validated. -/
def GameMap.fromJSON (data : GameMapData) : GameMap :=
  ⟨data.width, data.height, data.name,
    data.tiles.foldl
      (fun m tileData =>
        let tile := Tile.fromJSON tileData
        mapSet m tile.coord tile)
      []⟩

-- ===========================================================================
-- AdjacencyEngine
-- ===========================================================================

structure DistrictAdjacencyResult where
  tile : Tile
  districtType : DistrictType
  totalBonus : Yields
  bonusBreakdown : List AdjacencyBonus
deriving DecidableEq, Repr

namespace AdjacencyEngine

/-- Campus: +1 Science per Mountain, +1 per 2 Rainforest and district tiles,
+2 per Geothermal Fissure, +2 per Reef. -/
def calculateCampusAdjacency (neighbors : List Tile) : List AdjacencyBonus :=
  let mountainCount := neighbors.countP (fun n => n.isMountain)
  let jungleCount := neighbors.countP (fun n => n.feature == .RAINFOREST)
  let reefCount := neighbors.countP (fun n => n.feature == .REEF)
  let geothermalCount := neighbors.countP (fun n => n.feature == .GEOTHERMAL_FISSURE)
  let districtCount := neighbors.countP (fun n => n.hasDistrict)
  let halfBonusCount := (jungleCount + districtCount) / 2
  (if mountainCount > 0 then
    [⟨.CAMPUS, .science, (mountainCount : Int),
      toString mountainCount ++ " Mountain(s)"⟩] else [])
  ++ (if halfBonusCount > 0 then
    [⟨.CAMPUS, .science, (halfBonusCount : Int),
      toString jungleCount ++ " Rainforest(s), " ++
        toString districtCount ++ " District(s)"⟩] else [])
  ++ (if geothermalCount > 0 then
    [⟨.CAMPUS, .science, (geothermalCount : Int) * 2,
      toString geothermalCount ++ " Geothermal Fissure(s)"⟩] else [])
  ++ (if reefCount > 0 then
    [⟨.CAMPUS, .science, (reefCount : Int) * 2,
      toString reefCount ++ " Reef(s)"⟩] else [])

/-- Holy Site: +1 Faith per Mountain, +1 per 2 Woods and district tiles,
+2 per Natural Wonder. -/
def calculateHolySiteAdjacency (neighbors : List Tile) : List AdjacencyBonus :=
  let mountainCount := neighbors.countP (fun n => n.isMountain)
  let forestCount := neighbors.countP (fun n => n.feature == .WOODS)
  let naturalWonderCount := neighbors.countP (fun n => n.hasNaturalWonder)
  let districtCount := neighbors.countP (fun n => n.hasDistrict)
  let halfBonusCount := (forestCount + districtCount) / 2
  (if mountainCount > 0 then
    [⟨.HOLY_SITE, .faith, (mountainCount : Int),
      toString mountainCount ++ " Mountain(s)"⟩] else [])
  ++ (if halfBonusCount > 0 then
    [⟨.HOLY_SITE, .faith, (halfBonusCount : Int),
      toString forestCount ++ " Woods, " ++
        toString districtCount ++ " District(s)"⟩] else [])
  ++ (if naturalWonderCount > 0 then
    [⟨.HOLY_SITE, .faith, (naturalWonderCount : Int) * 2,
      toString naturalWonderCount ++ " Natural Wonder(s)"⟩] else [])

/-- Theater Square: +2 Culture per Wonder, +1 per 2 district tiles. -/
def calculateTheaterSquareAdjacency (neighbors : List Tile) : List AdjacencyBonus :=
  let wonderCount := neighbors.countP (fun n => n.hasWonder)
  let districtCount := neighbors.countP (fun n => n.hasDistrict)
  let halfBonusCount := districtCount / 2
  (if wonderCount > 0 then
    [⟨.THEATER_SQUARE, .culture, (wonderCount : Int) * 2,
      toString wonderCount ++ " Wonder(s)"⟩] else [])
  ++ (if halfBonusCount > 0 then
    [⟨.THEATER_SQUARE, .culture, (halfBonusCount : Int),
      toString districtCount ++ " District(s)"⟩] else [])

/-- Commercial Hub: +2 Gold (flat) when the tile itself has a river edge,
+2 per adjacent Harbor, +1 per 2 adjacent district tiles. -/
def calculateCommercialHubAdjacency (tile : Tile) (neighbors : List Tile) :
    List AdjacencyBonus :=
  let harborCount := neighbors.countP (fun n => n.district == .HARBOR)
  let districtCount := neighbors.countP (fun n => n.hasDistrict)
  let halfBonusCount := districtCount / 2
  (if tile.hasRiver then [⟨.COMMERCIAL_HUB, .gold, 2, "River"⟩] else [])
  ++ (if harborCount > 0 then
    [⟨.COMMERCIAL_HUB, .gold, (harborCount : Int) * 2,
      toString harborCount ++ " Harbor(s)"⟩] else [])
  ++ (if halfBonusCount > 0 then
    [⟨.COMMERCIAL_HUB, .gold, (halfBonusCount : Int),
      toString districtCount ++ " District(s)"⟩] else [])

/-- Harbor: +1 Gold per adjacent water cell carrying a resource, +2 per
adjacent City Center, +1 per 2 adjacent district tiles. -/
def calculateHarborAdjacency (neighbors : List Tile) : List AdjacencyBonus :=
  let coastalResourceCount :=
    neighbors.countP (fun n => n.isWater && !(n.resource == .NONE))
  let cityCenterCount := neighbors.countP (fun n => n.district == .CITY_CENTER)
  let districtCount := neighbors.countP (fun n => n.hasDistrict)
  let halfBonusCount := districtCount / 2
  (if coastalResourceCount > 0 then
    [⟨.HARBOR, .gold, (coastalResourceCount : Int),
      toString coastalResourceCount ++ " Coastal Resource(s)"⟩] else [])
  ++ (if cityCenterCount > 0 then
    [⟨.HARBOR, .gold, (cityCenterCount : Int) * 2,
      toString cityCenterCount ++ " City Center(s)"⟩] else [])
  ++ (if halfBonusCount > 0 then
    [⟨.HARBOR, .gold, (halfBonusCount : Int),
      toString districtCount ++ " District(s)"⟩] else [])

/-- Industrial Zone: +1 Production per Mine and per Quarry, +2 per
Aqueduct/Dam/Canal, +1 per 2 adjacent district tiles, +1 per Strategic
resource. -/
def calculateIndustrialZoneAdjacency (neighbors : List Tile) : List AdjacencyBonus :=
  let mineCount := neighbors.countP (fun n => n.improvement == .MINE)
  let quarryCount := neighbors.countP (fun n => n.improvement == .QUARRY)
  let aqueductCount := neighbors.countP (fun n => n.district == .AQUEDUCT)
  let damCount := neighbors.countP (fun n => n.district == .DAM)
  let canalCount := neighbors.countP (fun n => n.district == .CANAL)
  let districtCount := neighbors.countP (fun n => n.hasDistrict)
  let strategicResourceCount :=
    neighbors.countP (fun n => (RESOURCE_DATA n.resource).category == .STRATEGIC)
  let waterInfraBonus : Int := ((aqueductCount + damCount + canalCount : Nat) : Int) * 2
  let halfBonusCount := districtCount / 2
  (if mineCount > 0 then
    [⟨.INDUSTRIAL_ZONE, .production, (mineCount : Int),
      toString mineCount ++ " Mine(s)"⟩] else [])
  ++ (if quarryCount > 0 then
    [⟨.INDUSTRIAL_ZONE, .production, (quarryCount : Int),
      toString quarryCount ++ " Quarry(ies)"⟩] else [])
  ++ (if waterInfraBonus > 0 then
    [⟨.INDUSTRIAL_ZONE, .production, waterInfraBonus,
      toString aqueductCount ++ " Aqueduct(s), " ++ toString damCount ++
        " Dam(s), " ++ toString canalCount ++ " Canal(s)"⟩] else [])
  ++ (if halfBonusCount > 0 then
    [⟨.INDUSTRIAL_ZONE, .production, (halfBonusCount : Int),
      toString districtCount ++ " District(s)"⟩] else [])
  ++ (if strategicResourceCount > 0 then
    [⟨.INDUSTRIAL_ZONE, .production, (strategicResourceCount : Int),
      toString strategicResourceCount ++ " Strategic Resource(s)"⟩] else [])

/-- Per-district dispatch plus the Government Plaza cross-cutting rule and the
final by-field totalling. -/
def calculateDistrictAdjacency (map : GameMap) (tile : Tile) :
    DistrictAdjacencyResult :=
  let neighbors := map.getNeighborTiles tile.coord
  let bonuses : List AdjacencyBonus :=
    match tile.district with
    | .CAMPUS => calculateCampusAdjacency neighbors
    | .HOLY_SITE => calculateHolySiteAdjacency neighbors
    | .THEATER_SQUARE => calculateTheaterSquareAdjacency neighbors
    | .COMMERCIAL_HUB => calculateCommercialHubAdjacency tile neighbors
    | .HARBOR => calculateHarborAdjacency neighbors
    | .INDUSTRIAL_ZONE => calculateIndustrialZoneAdjacency neighbors
    | _ => []
  let govPlazaAdjacent := neighbors.any (fun n => n.district == .GOVERNMENT_PLAZA)
  let bonuses :=
    if govPlazaAdjacent && (DISTRICT_DATA tile.district).isSpecialty then
      match (DISTRICT_DATA tile.district).primaryYieldType with
      | some primaryYield =>
        bonuses ++ [⟨tile.district, primaryYield, 1, "Government Plaza"⟩]
      | none => bonuses
    else bonuses
  let totalBonus :=
    bonuses.foldl (fun acc b => acc.addAt b.yieldType b.amount) EMPTY_YIELDS
  ⟨tile, tile.district, totalBonus, bonuses⟩

/-- Models `calculatePotentialAdjacency`. The method only reads the map (the
hypothetical tile is a fresh `Tile.fromJSON` copy with `district` overridden),
so the embedding returns the map alongside the result to state the frame
property; a missing coordinate yields `none`, never an error. -/
def calculatePotentialAdjacency (map : GameMap) (coord : HexCoord)
    (districtType : DistrictType) : Option DistrictAdjacencyResult × GameMap :=
  match map.getTile coord with
  | none => (none, map)
  | some tile =>
    let tempTile := Tile.fromJSON { tile.toJSON with district := districtType }
    (some (calculateDistrictAdjacency map tempTile), map)

def canPlaceDistrict (tile : Tile) (districtType : DistrictType) : Bool :=
  let districtInfo := DISTRICT_DATA districtType
  if districtInfo.requiresCoast && !tile.isWater then false
  else if districtInfo.requiresLand && tile.isWater then false
  else if !districtInfo.canBuildOnHills && tile.isHill then false
  else true

/-- Comparison against the running best, which starts at `-Infinity`
(modelled as `none`). -/
def gtRunningBest (total : Int) : Option Int → Bool
  | none => true
  | some best => total > best

/-- One iteration of the `findBestDistrictPlacement` loop. -/
def bestPlacementStep (map : GameMap) (districtType : DistrictType)
    (best : Option (HexCoord × DistrictAdjacencyResult) × Option Int)
    (tile : Tile) : Option (HexCoord × DistrictAdjacencyResult) × Option Int :=
  match (calculatePotentialAdjacency map tile.coord districtType).1 with
  | none => best
  | some result =>
    let total : Int :=
      match (DISTRICT_DATA districtType).primaryYieldType with
      | some primary => result.totalBonus.get primary
      | none => 0
    if gtRunningBest total best.2 then (some (tile.coord, result), some total)
    else best

/-- Models `findBestDistrictPlacement`: filter the range-3 workable tiles to
the eligible candidates, then keep the first candidate strictly beating the
running best. -/
def findBestDistrictPlacement (map : GameMap) (cityCenter : HexCoord)
    (districtType : DistrictType) :
    Option (HexCoord × DistrictAdjacencyResult) :=
  let workableTiles := map.getTilesInRange cityCenter 3
  let validTiles := workableTiles.filter (fun t =>
    !t.hasDistrict && !t.isMountain && canPlaceDistrict t districtType)
  (validTiles.foldl (bestPlacementStep map districtType) (none, none)).1

end AdjacencyEngine

-- ===========================================================================
-- Heap model for the riverEdges getter (src/core/Tile.ts, lines 84-86)
-- ===========================================================================

/-!
`Tile._riverEdges` is a JS `Set` object, i.e. a heap reference. To state that
`get riverEdges()` returns a *fresh copy* (`return new Set(this._riverEdges)`),
the relevant heap is made explicit: a store of Set objects addressed by `Nat`.
The tile's own set lives at some address `a`; the getter allocates a new
address holding a copy of the contents and hands that address to the caller,
who may then mutate through it with `Set.add` / `Set.delete`.
-/

abbrev RiverHeap := List (List Int)

def heapGet (h : RiverHeap) (a : Nat) : List Int :=
  h.getD a []

def heapSet (h : RiverHeap) (a : Nat) (s : List Int) : RiverHeap :=
  h.set a s

/-- Models the `riverEdges` getter: allocate a fresh `Set` with a copy of the
contents of the set at `a`, and return its address. -/
def riverEdgesGetter (h : RiverHeap) (a : Nat) : RiverHeap × Nat :=
  (h ++ [heapGet h a], h.length)

/-- A caller-side mutation on a `Set` object. -/
inductive SetOp where
  | add (e : Int)
  | delete (e : Int)
deriving DecidableEq, Repr

def applySetOp (h : RiverHeap) (a : Nat) : SetOp → RiverHeap
  | .add e => heapSet h a (setAdd (heapGet h a) e)
  | .delete e => heapSet h a (setDelete (heapGet h a) e)

def applySetOps (h : RiverHeap) (a : Nat) (ops : List SetOp) : RiverHeap :=
  ops.foldl (fun h' op => applySetOp h' a op) h

/-- Models `get hasRiver()` (`this._riverEdges.size > 0`) for the set at `a`. -/
def hasRiverAt (h : RiverHeap) (a : Nat) : Bool :=
  (heapGet h a).length > 0

-- ===========================================================================
-- Claim-side (spec-worded) definitions and well-formedness predicates
-- ===========================================================================

/-- Pointwise sum of two yields records over all six fields. -/
def Yields.addAll (a b : Yields) : Yields :=
  ⟨a.food + b.food, a.production + b.production, a.gold + b.gold,
    a.science + b.science, a.culture + b.culture, a.faith + b.faith⟩

/-- The Hills-modifier bonus: +1 production, as a yields record. -/
def hillsBonus (m : TerrainModifier) : Yields :=
  if m = .HILLS then { EMPTY_YIELDS with production := 1 } else EMPTY_YIELDS

/-- Claim C1's reading of `baseYields`: zero record, plus the terrain's
intrinsic yields, plus the Hills bonus, plus the feature's intrinsic yields,
plus the resource's intrinsic yields — summed over all six yield fields. -/
def specBaseYieldsAllFields (t : Tile) : Yields :=
  ((((EMPTY_YIELDS.addAll (TERRAIN_DATA t.terrain).yields).addAll
    (hillsBonus t.modifier)).addAll
    (FEATURE_DATA t.feature).yields).addAll
    (RESOURCE_DATA t.resource).yields)

/-- Restriction of a yields record to its food, production and gold fields. -/
def Yields.foodProdGold (y : Yields) : Yields :=
  ⟨y.food, y.production, y.gold, 0, 0, 0⟩

/-- Amended reading of `baseYields`: the same four sources, each counted
exactly once, but summed only over the food, production and gold fields
(the science, culture and faith components of the tables are ignored). -/
def specBaseYieldsFPG (t : Tile) : Yields :=
  ((((EMPTY_YIELDS.addAll (TERRAIN_DATA t.terrain).yields.foodProdGold).addAll
    (hillsBonus t.modifier)).addAll
    (FEATURE_DATA t.feature).yields.foodProdGold).addAll
    (RESOURCE_DATA t.resource).yields.foodProdGold)

/-- Every stored tile sits under the key of its own coordinate. This holds for
every map built through the public interface (`initializeEmptyMap`, `setTile`
and `fromJSON` all key by `coordToKey(tile.coord)`). -/
def MapWF (map : GameMap) : Prop :=
  ∀ p ∈ map.tiles, (p.2 : Tile).coord = p.1

instance : DecidablePred MapWF := fun map => by
  unfold MapWF; infer_instance

/-- The association list has pairwise-distinct keys, as a JS `Map` always
does. -/
def MapKeysNodup (map : GameMap) : Prop :=
  (map.tiles.map Prod.fst).Nodup

instance : DecidablePred MapKeysNodup := fun map => by
  unfold MapKeysNodup; infer_instance

/-- Field-by-field equivalence of two tiles, with the river-edge sets compared
as sets (claim C5's notion of "identical"). -/
def TileFieldsEq (a b : Tile) : Prop :=
  a.coord = b.coord ∧ a.terrain = b.terrain ∧ a.modifier = b.modifier ∧
  a.feature = b.feature ∧ a.resource = b.resource ∧ a.district = b.district ∧
  a.wonder = b.wonder ∧ a.naturalWonder = b.naturalWonder ∧
  a.improvement = b.improvement ∧ a.ownerCityId = b.ownerCityId ∧
  a.isCityCenter = b.isCityCenter ∧
  ∀ e : Int, e ∈ a.riverEdges ↔ e ∈ b.riverEdges

/-- The eligible candidate list of `findBestDistrictPlacement`, in the order
the loop visits it. -/
def validPlacementTiles (map : GameMap) (cityCenter : HexCoord)
    (districtType : DistrictType) : List Tile :=
  (map.getTilesInRange cityCenter 3).filter (fun t =>
    !t.hasDistrict && !t.isMountain &&
      AdjacencyEngine.canPlaceDistrict t districtType)

/-- The hypothetical-placement result the engine computes for candidate `t`. -/
def potentialResult (map : GameMap) (districtType : DistrictType) (t : Tile) :
    DistrictAdjacencyResult :=
  AdjacencyEngine.calculateDistrictAdjacency map
    (Tile.fromJSON { t.toJSON with district := districtType })

/-- The primary-yield score the search loop compares. -/
def potentialScore (map : GameMap) (districtType : DistrictType) (t : Tile) :
    Int :=
  match (DISTRICT_DATA districtType).primaryYieldType with
  | some primary => (potentialResult map districtType t).totalBonus.get primary
  | none => 0

-- ===========================================================================
-- Concrete example inputs used by witnesses and counterexamples
-- ===========================================================================

/-- A default tile carrying a Geothermal Fissure (reachable: `setFeature`
allows it on the default Grass terrain). -/
def geoFissureTile : Tile :=
  { newTile ⟨0, 0⟩ with feature := .GEOTHERMAL_FISSURE }

/-- A Grass/Mountain tile: the successful result of
`(new Tile((0,0))).setTerrain(GRASS, MOUNTAIN)`. -/
def mountainGrassTile : Tile :=
  { newTile ⟨0, 0⟩ with terrain := .GRASS, modifier := .MOUNTAIN }

/-- The successful result of `(new Tile((0,0))).setDistrict(CAMPUS)`. -/
def campusTile : Tile :=
  { newTile ⟨0, 0⟩ with district := .CAMPUS }

/-- A riverless Commercial Hub tile at (1,1). -/
def commercialHubTile : Tile :=
  { newTile ⟨1, 1⟩ with district := .COMMERCIAL_HUB }

/-- A small concrete map: a Commercial Hub at (1,1) with exactly three
districted neighbors (Campus, Holy Site, Theater Square), no Harbor, no
Government Plaza, no rivers anywhere. -/
def exampleMap : GameMap :=
  { width := 3
    height := 3
    name := "example"
    tiles :=
      [(⟨1, 1⟩, { newTile ⟨1, 1⟩ with district := .COMMERCIAL_HUB }),
       (⟨2, 1⟩, { newTile ⟨2, 1⟩ with district := .CAMPUS }),
       (⟨1, 2⟩, { newTile ⟨1, 2⟩ with district := .HOLY_SITE }),
       (⟨0, 2⟩, { newTile ⟨0, 2⟩ with district := .THEATER_SQUARE }),
       (⟨0, 1⟩, newTile ⟨0, 1⟩),
       (⟨1, 0⟩, newTile ⟨1, 0⟩),
       (⟨2, 0⟩, newTile ⟨2, 0⟩)] }

/-- A snapshot with an unknown version number and otherwise default content. -/
def badVersionData : GameMapData :=
  ⟨99, "bad", 1, 1, [Tile.toJSON (newTile ⟨0, 0⟩)]⟩

-- ===========================================================================
-- Helper lemmas
-- ===========================================================================

theorem mapGet_mapSet (m : List (HexCoord × Tile)) (k : HexCoord) (v : Tile)
    (k' : HexCoord) :
    mapGet (mapSet m k v) k' = if k = k' then some v else mapGet m k' := by
  induction m with
  | nil => simp [mapSet, mapGet]
  | cons p rest ih =>
    obtain ⟨k₀, v₀⟩ := p
    by_cases h₀ : k₀ = k
    · subst h₀
      by_cases h₂ : k₀ = k' <;> simp [mapSet, mapGet, h₂]
    · have hL : mapGet (mapSet ((k₀, v₀) :: rest) k v) k'
          = if k₀ = k' then some v₀ else mapGet (mapSet rest k v) k' := by
        simp [mapSet, mapGet, h₀]
      have hR : mapGet ((k₀, v₀) :: rest) k'
          = if k₀ = k' then some v₀ else mapGet rest k' := by
        simp [mapGet]
      rw [hL, ih, hR]
      by_cases h₁ : k₀ = k'
      · have hk : ¬k = k' := fun h => h₀ (h₁.trans h.symm)
        simp [h₁, hk]
      · simp [h₁]

-- ===========================================================================
-- Claim theorems
-- ===========================================================================

/-- Claim C1, counterexample: on a default tile carrying a Geothermal Fissure
the computed `baseYields` differs from the claim's all-six-fields sum — the
feature's intrinsic `science: 1` is dropped by the code, which only adds the
food, production and gold components of each source. -/
theorem baseYields_ignores_feature_science :
    Tile.baseYields geoFissureTile ≠ specBaseYieldsAllFields geoFissureTile := by
  decide

/-- Claim C1, amended: for every Cell, `baseYields` equals the zero record
plus the terrain's intrinsic yields, plus 1 production for Hills, plus the
feature's and the resource's intrinsic yields, with each of the four sources
counted exactly once — but summed only over the food, production and gold
fields; the science, culture and faith components of the tables are ignored
(the computed science, culture and faith are always 0). -/
theorem baseYields_eq_specBaseYieldsFPG (t : Tile) :
    t.baseYields = specBaseYieldsFPG t := by
  by_cases hm : t.modifier = .HILLS <;>
    simp [Tile.baseYields, specBaseYieldsFPG, Yields.addAll, Yields.foodProdGold,
      hillsBonus, hm, EMPTY_YIELDS]

/-- Claim C4: every throwing mutator (`setTerrain`, `setFeature`,
`setDistrict`, `setImprovement`, `addRiverEdge`) performs all of its
validation before its first write, so a failure leaves the tile exactly as it
was (the error payload — the tile state at throw time — is the input tile);
the remaining mutators (`setResource`, `setWonder`, `setNaturalWonder`,
`removeRiverEdge`, `setOwner`) never throw. In particular combining the
Mountain or Hills modifier with Coast or Ocean terrain fails with the
water-tile validation error and leaves the tile unchanged. -/
theorem mutators_all_or_nothing :
    (∀ (t : Tile) (terrain : TerrainType) (modifier : TerrainModifier)
        (e : String) (t' : Tile),
      t.setTerrain terrain modifier = .error (e, t') → t' = t) ∧
    (∀ (t : Tile) (feature : FeatureType) (e : String) (t' : Tile),
      t.setFeature feature = .error (e, t') → t' = t) ∧
    (∀ (t : Tile) (district : DistrictType) (e : String) (t' : Tile),
      t.setDistrict district = .error (e, t') → t' = t) ∧
    (∀ (t : Tile) (improvement : ImprovementType) (e : String) (t' : Tile),
      t.setImprovement improvement = .error (e, t') → t' = t) ∧
    (∀ (t : Tile) (edge : Int) (e : String) (t' : Tile),
      t.addRiverEdge edge = .error (e, t') → t' = t) ∧
    (∀ (t : Tile) (wonder : WonderType), ∃ t' : Tile,
      t.setWonder wonder = t') ∧
    (∀ (t : Tile) (edge : Int), ∃ t' : Tile, t.removeRiverEdge edge = t') ∧
    (∀ (t : Tile) (cityId : Option String) (isCityCenter : Bool), ∃ t' : Tile,
      t.setOwner cityId isCityCenter = t') ∧
    (∀ (t : Tile) (terrain : TerrainType),
      (terrain = .COAST ∨ terrain = .OCEAN) →
      t.setTerrain terrain .MOUNTAIN =
        .error ("Mountains cannot be placed on water tiles", t) ∧
      t.setTerrain terrain .HILLS =
        .error ("Hills cannot be placed on water tiles", t)) := by
  refine ⟨?_, ?_, ?_, ?_, ?_, ?_, ?_, ?_, ?_⟩
  · intro t terrain modifier e t' h
    unfold Tile.setTerrain at h
    split_ifs at h <;> simp_all
  · intro t feature e t' h
    unfold Tile.setFeature at h
    split_ifs at h <;> simp_all
  · intro t district e t' h
    unfold Tile.setDistrict at h
    split_ifs at h <;> simp_all
  · intro t improvement e t' h
    unfold Tile.setImprovement at h
    split_ifs at h <;> simp_all
  · intro t edge e t' h
    unfold Tile.addRiverEdge at h
    split_ifs at h <;> simp_all
  · intro t wonder
    exact ⟨t.setWonder wonder, rfl⟩
  · intro t edge
    exact ⟨t.removeRiverEdge edge, rfl⟩
  · intro t cityId isCityCenter
    exact ⟨t.setOwner cityId isCityCenter, rfl⟩
  · intro t terrain h
    rcases h with h | h <;> subst h <;>
      refine ⟨?_, ?_⟩ <;> simp [Tile.setTerrain]

/-- Claim C4, witness: on a fresh tile, `setTerrain(COAST, MOUNTAIN)` fails
with the water-tile error and the tile carried by the error is unchanged. -/
theorem mutators_all_or_nothing_witness :
    (newTile ⟨0, 0⟩).setTerrain .COAST .MOUNTAIN =
      .error ("Mountains cannot be placed on water tiles", newTile ⟨0, 0⟩) ∧
    newTile ⟨0, 0⟩ = newTile ⟨0, 0⟩ :=
  ⟨rfl,
    mutators_all_or_nothing.1 (newTile ⟨0, 0⟩) .COAST .MOUNTAIN
      "Mountains cannot be placed on water tiles" (newTile ⟨0, 0⟩) rfl⟩

/-- Claim C7, counterexample: the no-district-on-Mountain invariant is not
preserved by all mutator sequences. From a fresh cell, `setTerrain(GRASS,
MOUNTAIN)` succeeds, and then `setOwner("city1", true)` unconditionally forces
`district = CITY_CENTER`, producing a Mountain cell with a non-None district
(`setTerrain` can likewise put Mountain under an existing district). -/
theorem district_on_mountain_reachable :
    (newTile ⟨0, 0⟩).setTerrain .GRASS .MOUNTAIN = .ok mountainGrassTile ∧
    (mountainGrassTile.setOwner (some "city1") true).modifier = .MOUNTAIN ∧
    (mountainGrassTile.setOwner (some "city1") true).district = .CITY_CENTER ∧
    DistrictType.CITY_CENTER ≠ .NONE := by
  refine ⟨rfl, rfl, rfl, by decide⟩

/-- Claim C7, amended: `setDistrict` itself never places a non-None district
on a Mountain cell (it fails with a validation error instead), but the
invariant does not extend to all reachable states: `setOwner(·, true)` and
`setTerrain(·, MOUNTAIN)` bypass the check (see the counterexample). -/
theorem setDistrict_rejects_mountain (t : Tile) (district : DistrictType)
    (t' : Tile) (hok : t.setDistrict district = .ok t')
    (hd : district ≠ .NONE) : t'.modifier ≠ .MOUNTAIN := by
  have hmod : t.modifier ≠ .MOUNTAIN := by
    intro hM
    unfold Tile.setDistrict at hok
    rw [if_pos ⟨hM, hd⟩] at hok
    exact absurd hok (by simp)
  unfold Tile.setDistrict at hok
  split_ifs at hok <;>
    first
      | exact Except.noConfusion hok
      | (simp only [Except.ok.injEq] at hok
         subst hok
         exact hmod)

/-- Claim C7, amended witness: placing a Campus on a fresh (Flat) tile
succeeds and the resulting tile is not Mountain. -/
theorem setDistrict_rejects_mountain_witness :
    (newTile ⟨0, 0⟩).setDistrict .CAMPUS = .ok campusTile ∧
    campusTile.modifier ≠ .MOUNTAIN :=
  ⟨rfl,
    setDistrict_rejects_mountain (newTile ⟨0, 0⟩) .CAMPUS campusTile
      rfl (by decide)⟩

/-- Claim C9: `calculatePotentialAdjacency` has no observable side effect on
the Grid — the map it operates on is returned exactly as given (hence its
snapshot is unchanged) — and a coordinate absent from the Grid yields the
not-found result rather than an error. -/
theorem calculatePotentialAdjacency_pure (map : GameMap) (coord : HexCoord)
    (districtType : DistrictType) :
    (AdjacencyEngine.calculatePotentialAdjacency map coord districtType).2 =
      map ∧
    GameMap.toJSON
      (AdjacencyEngine.calculatePotentialAdjacency map coord districtType).2 =
      GameMap.toJSON map ∧
    ((AdjacencyEngine.calculatePotentialAdjacency map coord districtType).1 =
        none ↔ map.getTile coord = none) := by
  cases h : map.getTile coord <;>
    simp [AdjacencyEngine.calculatePotentialAdjacency, h]

-- ===========================================================================
-- Heap lemmas and claim C10
-- ===========================================================================

theorem heapGet_append (h : RiverHeap) (l : List (List Int)) (a : Nat)
    (ha : a < h.length) : heapGet (h ++ l) a = heapGet h a := by
  unfold heapGet
  rw [List.getD_eq_getElem?_getD, List.getD_eq_getElem?_getD,
    List.getElem?_append, if_pos ha]

theorem heapGet_heapSet_ne (h : RiverHeap) (b : Nat) (s : List Int) (a : Nat)
    (hab : a ≠ b) : heapGet (heapSet h b s) a = heapGet h a := by
  unfold heapGet heapSet
  rw [List.getD_eq_getElem?_getD, List.getD_eq_getElem?_getD,
    List.getElem?_set_ne (fun hba => hab hba.symm)]

theorem applySetOps_other (ops : List SetOp) :
    ∀ (h : RiverHeap) (a b : Nat), a ≠ b →
      heapGet (applySetOps h b ops) a = heapGet h a := by
  induction ops with
  | nil => intro h a b _; rfl
  | cons op rest ih =>
    intro h a b hab
    have hstep : applySetOps h b (op :: rest)
        = applySetOps (applySetOp h b op) b rest := rfl
    rw [hstep, ih _ _ _ hab]
    cases op <;> exact heapGet_heapSet_ne _ _ _ _ hab

/-- Claim C10: the `riverEdges` getter returns a fresh copy of the internal
river-edge set — any sequence of `add`/`delete` mutations performed through
the returned set leaves the tile's stored edges (and hence `hasRiver` and the
serialized edge list) unchanged — and no mutator other than `addRiverEdge` /
`removeRiverEdge` ever changes the stored river edges. -/
theorem riverEdges_getter_returns_copy :
    (∀ (h : RiverHeap) (a : Nat) (ops : List SetOp), a < h.length →
      heapGet (applySetOps (riverEdgesGetter h a).1 (riverEdgesGetter h a).2 ops) a
        = heapGet h a ∧
      hasRiverAt (applySetOps (riverEdgesGetter h a).1 (riverEdgesGetter h a).2 ops) a
        = hasRiverAt h a) ∧
    (∀ (t : Tile) (terrain : TerrainType) (modifier : TerrainModifier) (t' : Tile),
      t.setTerrain terrain modifier = .ok t' → t'.riverEdges = t.riverEdges) ∧
    (∀ (t : Tile) (feature : FeatureType) (t' : Tile),
      t.setFeature feature = .ok t' → t'.riverEdges = t.riverEdges) ∧
    (∀ (t : Tile) (resource : ResourceType),
      (t.setResource resource).riverEdges = t.riverEdges) ∧
    (∀ (t : Tile) (district : DistrictType) (t' : Tile),
      t.setDistrict district = .ok t' → t'.riverEdges = t.riverEdges) ∧
    (∀ (t : Tile) (wonder : WonderType),
      (t.setWonder wonder).riverEdges = t.riverEdges) ∧
    (∀ (t : Tile) (naturalWonder : NaturalWonderType),
      (t.setNaturalWonder naturalWonder).riverEdges = t.riverEdges) ∧
    (∀ (t : Tile) (improvement : ImprovementType) (t' : Tile),
      t.setImprovement improvement = .ok t' → t'.riverEdges = t.riverEdges) ∧
    (∀ (t : Tile) (cityId : Option String) (isCityCenter : Bool),
      (t.setOwner cityId isCityCenter).riverEdges = t.riverEdges) := by
  refine ⟨?_, ?_, ?_, ?_, ?_, ?_, ?_, ?_, ?_⟩
  · intro h a ops ha
    have hne : a ≠ (riverEdgesGetter h a).2 := Nat.ne_of_lt ha
    have h1 := applySetOps_other ops (riverEdgesGetter h a).1 a
      (riverEdgesGetter h a).2 hne
    have h2 : heapGet (riverEdgesGetter h a).1 a = heapGet h a :=
      heapGet_append h _ a ha
    exact ⟨h1.trans h2, by unfold hasRiverAt; rw [h1, h2]⟩
  · intro t terrain modifier t' hok
    unfold Tile.setTerrain at hok
    split_ifs at hok <;>
      first
        | exact Except.noConfusion hok
        | (simp only [Except.ok.injEq] at hok; subst hok; rfl)
  · intro t feature t' hok
    unfold Tile.setFeature at hok
    split_ifs at hok <;>
      first
        | exact Except.noConfusion hok
        | (simp only [Except.ok.injEq] at hok; subst hok; rfl)
  · intro t resource; rfl
  · intro t district t' hok
    unfold Tile.setDistrict at hok
    split_ifs at hok <;>
      first
        | exact Except.noConfusion hok
        | (simp only [Except.ok.injEq] at hok; subst hok; rfl)
  · intro t wonder
    unfold Tile.setWonder
    split_ifs <;> rfl
  · intro t naturalWonder; rfl
  · intro t improvement t' hok
    unfold Tile.setImprovement at hok
    split_ifs at hok <;>
      first
        | exact Except.noConfusion hok
        | (simp only [Except.ok.injEq] at hok; subst hok; rfl)
  · intro t cityId isCityCenter
    unfold Tile.setOwner
    split_ifs <;> rfl

/-- Claim C10, witness: on a one-set heap holding `{2}`, getting the edge set
and then adding 5 and deleting 2 through the returned copy leaves the stored
set `{2}` unchanged. -/
theorem riverEdges_getter_returns_copy_witness :
    heapGet (applySetOps (riverEdgesGetter [[2]] 0).1
      (riverEdgesGetter [[2]] 0).2 [SetOp.add 5, SetOp.delete 2]) 0
      = heapGet [[2]] 0 ∧
    heapGet ([[2]] : RiverHeap) 0 = [2] :=
  ⟨(riverEdges_getter_returns_copy.1 [[2]] 0 [SetOp.add 5, SetOp.delete 2]
      (by decide)).1, rfl⟩

-- ===========================================================================
-- Claim C6
-- ===========================================================================

/-- Claim C6, counterexample: a snapshot with `version: 99` deserializes
without any error into a fully-populated Grid — no version, field or enum
validation exists, and no `MalformedSnapshot` failure path exists in the
code (`fromJSON` is total on snapshot records). -/
theorem fromJSON_accepts_unknown_version :
    GameMap.fromJSON badVersionData =
      ⟨1, 1, "bad", [(⟨0, 0⟩, newTile ⟨0, 0⟩)]⟩ := by
  decide

theorem mapGet_isSome_mapSet (m : List (HexCoord × Tile)) (k : HexCoord)
    (v : Tile) (k' : HexCoord) (h : (mapGet m k').isSome) :
    (mapGet (mapSet m k v) k').isSome := by
  rw [mapGet_mapSet]
  by_cases hk : k = k' <;> simp [hk, h]

theorem fromJSON_fold_isSome (L : List TileData) :
    ∀ (m : List (HexCoord × Tile)) (k : HexCoord),
      (k ∈ L.map TileData.coord ∨ (mapGet m k).isSome) →
      (mapGet (L.foldl
        (fun acc td => mapSet acc (Tile.fromJSON td).coord (Tile.fromJSON td))
        m) k).isSome := by
  induction L with
  | nil =>
    intro m k h
    rcases h with h | h
    · simp at h
    · exact h
  | cons td rest ih =>
    intro m k h
    rw [List.foldl_cons]
    apply ih
    rcases h with h | h
    · rw [List.map_cons, List.mem_cons] at h
      rcases h with rfl | h
      · right
        rw [mapGet_mapSet]
        have : (Tile.fromJSON td).coord = td.coord := rfl
        rw [this, if_pos rfl]
        rfl
      · left; exact h
    · right; exact mapGet_isSome_mapSet _ _ _ _ h

/-- Claim C6, amended: deserialization performs no structural validation.
`fromJSON` ignores the `version` field entirely, accepts every snapshot
record, and always produces a Grid populated with one cell per tile entry
(fields copied verbatim); a malformed snapshot is never rejected, so the
only failure possible in `importFromString` is a JSON syntax error in
`JSON.parse`, outside the core. -/
theorem fromJSON_no_validation :
    (∀ (data : GameMapData) (v : Int),
      GameMap.fromJSON { data with version := v } = GameMap.fromJSON data) ∧
    (∀ (data : GameMapData) (td : TileData), td ∈ data.tiles →
      ((GameMap.fromJSON data).getTile td.coord).isSome) := by
  constructor
  · intro data v; rfl
  · intro data td hmem
    unfold GameMap.fromJSON GameMap.getTile
    exact fromJSON_fold_isSome data.tiles [] td.coord
      (Or.inl (List.mem_map_of_mem _ hmem))

/-- Claim C6, amended witness: the version-99 snapshot loads and its tile at
(0,0) is present in the resulting Grid. -/
theorem fromJSON_no_validation_witness :
    ((GameMap.fromJSON badVersionData).getTile ⟨0, 0⟩).isSome ∧
    badVersionData.version = 99 :=
  ⟨fromJSON_no_validation.2 badVersionData (Tile.toJSON (newTile ⟨0, 0⟩))
      (by decide), rfl⟩

-- ===========================================================================
-- Claim C2
-- ===========================================================================

/-- Claim C2: for a Commercial Hub cell whose existing neighbors contain
exactly 3 districted cells, none of which is a Harbor or a Government Plaza,
the gold adjacency total is 1 (`floor(3/2)`) when the cell's river-edge set is
empty, and 3 (a flat +2 for the river — however many river edges — plus the
district-pair bonus of 1) when it has at least one river edge. -/
theorem commercialHub_three_adjacent_districts_gold
    (map : GameMap) (t : Tile) (hd : t.district = .COMMERCIAL_HUB)
    (h3 : ((map.getNeighborTiles t.coord).filter
      (fun n => n.hasDistrict)).length = 3)
    (hharb : ∀ n ∈ map.getNeighborTiles t.coord, n.district ≠ .HARBOR)
    (hgov : ∀ n ∈ map.getNeighborTiles t.coord, n.district ≠ .GOVERNMENT_PLAZA) :
    (t.riverEdges = [] →
      (AdjacencyEngine.calculateDistrictAdjacency map t).totalBonus.gold = 1) ∧
    (t.riverEdges ≠ [] →
      (AdjacencyEngine.calculateDistrictAdjacency map t).totalBonus.gold = 3) := by
  have hdc : (map.getNeighborTiles t.coord).countP (fun n => n.hasDistrict) = 3 := by
    rw [List.countP_eq_length_filter]
    exact h3
  have hhc : (map.getNeighborTiles t.coord).countP
      (fun n => n.district == DistrictType.HARBOR) = 0 := by
    rw [List.countP_eq_zero]
    intro n hn
    simpa using hharb n hn
  have hgc : (map.getNeighborTiles t.coord).any
      (fun n => n.district == DistrictType.GOVERNMENT_PLAZA) = false := by
    rw [List.any_eq_false]
    intro n hn
    simpa using hgov n hn
  constructor
  · intro hr
    have hriver : t.hasRiver = false := by simp [Tile.hasRiver, hr]
    simp [AdjacencyEngine.calculateDistrictAdjacency, hd,
      AdjacencyEngine.calculateCommercialHubAdjacency, hdc, hhc, hgc, hriver,
      Yields.addAt, EMPTY_YIELDS]
  · intro hr
    have hriver : t.hasRiver = true := by
      simp [Tile.hasRiver, List.length_pos, hr]
    simp [AdjacencyEngine.calculateDistrictAdjacency, hd,
      AdjacencyEngine.calculateCommercialHubAdjacency, hdc, hhc, hgc, hriver,
      Yields.addAt, EMPTY_YIELDS]

/-- Claim C2, witness: on the concrete example map, the riverless Commercial
Hub at (1,1) with exactly three adjacent districts totals 1 gold. -/
theorem commercialHub_three_adjacent_districts_gold_witness :
    (AdjacencyEngine.calculateDistrictAdjacency exampleMap
      commercialHubTile).totalBonus.gold = 1 :=
  (commercialHub_three_adjacent_districts_gold exampleMap commercialHubTile
    rfl (by decide) (by decide) (by decide)).1 rfl

-- ===========================================================================
-- Claim C5
-- ===========================================================================

theorem mem_foldl_setAdd (l : List Int) :
    ∀ (acc : List Int) (e : Int), e ∈ l.foldl setAdd acc ↔ e ∈ acc ∨ e ∈ l := by
  induction l with
  | nil => intro acc e; simp
  | cons x xs ih =>
    intro acc e
    rw [List.foldl_cons, ih]
    unfold setAdd
    by_cases hx : x ∈ acc
    · rw [if_pos hx]
      simp only [List.mem_cons]
      constructor
      · tauto
      · rintro (h | rfl | h) <;> tauto
    · rw [if_neg hx]
      simp only [List.mem_append, List.mem_cons, List.mem_singleton,
        List.not_mem_nil, or_false]
      tauto

theorem mem_jsSetOfList (l : List Int) (e : Int) :
    e ∈ jsSetOfList l ↔ e ∈ l := by
  unfold jsSetOfList
  rw [mem_foldl_setAdd]
  simp

/-- A round-tripped tile agrees with the original on every field, with the
river-edge sets equal as sets. -/
theorem fromJSON_toJSON_fields (t : Tile) :
    TileFieldsEq t (Tile.fromJSON (Tile.toJSON t)) := by
  refine ⟨rfl, rfl, rfl, rfl, rfl, rfl, rfl, rfl, rfl, rfl, rfl, ?_⟩
  intro e
  exact (mem_jsSetOfList t.riverEdges e).symm

theorem mapSet_fresh (m : List (HexCoord × Tile)) (k : HexCoord) (v : Tile)
    (hk : k ∉ m.map Prod.fst) : mapSet m k v = m ++ [(k, v)] := by
  induction m with
  | nil => rfl
  | cons p rest ih =>
    obtain ⟨k₀, v₀⟩ := p
    simp only [List.map_cons, List.mem_cons, not_or] at hk
    unfold mapSet
    rw [if_neg (fun h => hk.1 h.symm)]
    rw [ih hk.2]
    rfl

theorem fold_fromJSON_toJSON (l : List (HexCoord × Tile)) :
    ∀ (m : List (HexCoord × Tile)),
      (∀ p ∈ l, (p.2 : Tile).coord = p.1) →
      (l.map Prod.fst).Nodup →
      (∀ k ∈ l.map Prod.fst, k ∉ m.map Prod.fst) →
      (l.map (fun p => Tile.toJSON p.2)).foldl
        (fun acc td => mapSet acc (Tile.fromJSON td).coord (Tile.fromJSON td)) m
      = m ++ l.map (fun p => (p.1, Tile.fromJSON (Tile.toJSON p.2))) := by
  induction l with
  | nil => intro m _ _ _; simp
  | cons p rest ih =>
    intro m hwf hnd hdisj
    obtain ⟨k₀, t₀⟩ := p
    have hcoord : (Tile.fromJSON (Tile.toJSON t₀)).coord = k₀ :=
      hwf (k₀, t₀) (List.mem_cons_self _ _)
    simp only [List.map_cons, List.foldl_cons]
    rw [hcoord, mapSet_fresh m k₀ _ (hdisj k₀ (by simp))]
    have hk₀ : k₀ ∉ rest.map Prod.fst := by
      rw [List.map_cons] at hnd
      exact (List.nodup_cons.mp hnd).1
    have hside : ∀ k ∈ rest.map Prod.fst,
        k ∉ (m ++ [(k₀, Tile.fromJSON (Tile.toJSON t₀))]).map Prod.fst := by
      intro k hkmem
      simp only [List.map_append, List.map_cons, List.map_nil,
        List.mem_append, List.mem_cons, List.not_mem_nil, or_false, not_or]
      exact ⟨hdisj k (by simp [hkmem]), fun hkk => hk₀ (hkk ▸ hkmem)⟩
    rw [ih (m ++ [(k₀, Tile.fromJSON (Tile.toJSON t₀))])
      (fun q hq => hwf q (List.mem_cons_of_mem _ hq))
      (by rw [List.map_cons] at hnd; exact (List.nodup_cons.mp hnd).2)
      hside]
    rw [List.append_assoc]
    rfl

theorem mapGet_map_roundTile (l : List (HexCoord × Tile)) (c : HexCoord) :
    mapGet (l.map (fun p => (p.1, Tile.fromJSON (Tile.toJSON p.2)))) c
      = (mapGet l c).map (fun t => Tile.fromJSON (Tile.toJSON t)) := by
  induction l with
  | nil => rfl
  | cons p rest ih =>
    obtain ⟨k₀, t₀⟩ := p
    by_cases h : k₀ = c <;> simp [mapGet, h, ih]

/-- Claim C5: round trip. For every Grid reachable through the public
interface (tiles keyed by their own coordinate, keys distinct),
`fromJSON (toJSON g)` is a Grid with the same width, height and name, the
same coordinate set, and at every present coordinate a cell whose ten scalar
fields equal the original's and whose river-edge set equals the original's as
a set. -/
theorem snapshot_roundTrip (map : GameMap) (hwf : MapWF map)
    (hnd : MapKeysNodup map) :
    (GameMap.fromJSON (GameMap.toJSON map)).width = map.width ∧
    (GameMap.fromJSON (GameMap.toJSON map)).height = map.height ∧
    (GameMap.fromJSON (GameMap.toJSON map)).name = map.name ∧
    (∀ c : HexCoord,
      ((GameMap.fromJSON (GameMap.toJSON map)).getTile c).isSome
        = (map.getTile c).isSome) ∧
    (∀ (c : HexCoord) (t t' : Tile), map.getTile c = some t →
      (GameMap.fromJSON (GameMap.toJSON map)).getTile c = some t' →
      TileFieldsEq t t') := by
  have htiles : (GameMap.fromJSON (GameMap.toJSON map)).tiles
      = map.tiles.map (fun p => (p.1, Tile.fromJSON (Tile.toJSON p.2))) := by
    show (map.getAllTiles.map Tile.toJSON).foldl _ [] = _
    unfold GameMap.getAllTiles
    rw [List.map_map]
    have := fold_fromJSON_toJSON map.tiles [] hwf hnd (by simp)
    simpa using this
  refine ⟨rfl, rfl, rfl, ?_, ?_⟩
  · intro c
    unfold GameMap.getTile
    rw [htiles, mapGet_map_roundTile]
    cases mapGet map.tiles c <;> rfl
  · intro c t t' h1 h2
    unfold GameMap.getTile at h1 h2
    rw [htiles, mapGet_map_roundTile, h1] at h2
    have h3 : some (Tile.fromJSON (Tile.toJSON t)) = some t' := h2
    rw [← Option.some.inj h3]
    exact fromJSON_toJSON_fields t

/-- Claim C5, witness: the concrete example map round-trips — the hub cell at
(1,1) is present on both sides. -/
theorem snapshot_roundTrip_witness :
    ((GameMap.fromJSON (GameMap.toJSON exampleMap)).getTile ⟨1, 1⟩).isSome
      = (exampleMap.getTile ⟨1, 1⟩).isSome ∧
    MapWF exampleMap ∧ MapKeysNodup exampleMap :=
  ⟨(snapshot_roundTrip exampleMap (by decide) (by decide)).2.2.2.1 ⟨1, 1⟩,
    by decide, by decide⟩

-- ===========================================================================
-- Claim C8
-- ===========================================================================

theorem mapGet_foldl_newTile (L : List HexCoord) :
    ∀ (m : List (HexCoord × Tile)) (c : HexCoord),
      mapGet (L.foldl (fun acc coord => mapSet acc coord (newTile coord)) m) c
        = if c ∈ L then some (newTile c) else mapGet m c := by
  induction L with
  | nil => intro m c; simp
  | cons x xs ih =>
    intro m c
    rw [List.foldl_cons, ih]
    by_cases hc : c ∈ xs
    · simp [hc]
    · rw [if_neg hc, mapGet_mapSet]
      by_cases hx : x = c
      · subst hx
        simp
      · have hcx : ¬c ∈ x :: xs := by
          rw [List.mem_cons, not_or]
          exact ⟨fun h => hx h.symm, hc⟩
        rw [if_neg hx, if_neg hcx]

theorem mem_intRange (lo hi q : Int) :
    q ∈ intRange lo hi ↔ lo ≤ q ∧ q < hi := by
  constructor
  · intro hq
    obtain ⟨i, hi, heq⟩ := List.mem_map.mp hq
    rw [List.mem_range, Int.lt_toNat] at hi
    omega
  · rintro ⟨h1, h2⟩
    refine List.mem_map.mpr ⟨(q - lo).toNat, List.mem_range.mpr ?_, ?_⟩
    · rw [Int.lt_toNat]
      have := Int.toNat_of_nonneg (show 0 ≤ q - lo by omega)
      omega
    · have := Int.toNat_of_nonneg (show 0 ≤ q - lo by omega)
      omega

theorem mem_initCoords (width height : Nat) (q r : Int) :
    (⟨q, r⟩ : HexCoord) ∈ initCoords width height ↔
      0 ≤ r ∧ r < height ∧ -(r / 2) ≤ q ∧ q < width - r / 2 := by
  unfold initCoords
  simp only [List.mem_flatMap, List.mem_map, List.mem_range, mem_intRange]
  constructor
  · rintro ⟨row, hrow, q', hq', heq⟩
    rw [HexCoord.mk.injEq] at heq
    obtain ⟨rfl, rfl⟩ := heq
    omega
  · rintro ⟨h0, hr, hq1, hq2⟩
    refine ⟨r.toNat, by omega, q, ⟨by omega, by omega⟩, ?_⟩
    rw [HexCoord.mk.injEq]
    exact ⟨rfl, by omega⟩

theorem keys_mapSet_mem (m : List (HexCoord × Tile)) (k : HexCoord) (v : Tile) :
    ∀ x ∈ (mapSet m k v).map Prod.fst, x ∈ m.map Prod.fst ∨ x = k := by
  induction m with
  | nil => intro x hx; simp [mapSet] at hx; exact Or.inr hx
  | cons p rest ih =>
    obtain ⟨k₀, v₀⟩ := p
    intro x hx
    unfold mapSet at hx
    by_cases h₀ : k₀ = k
    · rw [if_pos h₀] at hx
      rcases List.mem_cons.mp hx with rfl | hx
      · exact Or.inr rfl
      · exact Or.inl (List.mem_cons_of_mem _ hx)
    · rw [if_neg h₀] at hx
      rcases List.mem_cons.mp hx with rfl | hx
      · exact Or.inl (List.mem_cons_self _ _)
      · rcases ih x hx with h | h
        · exact Or.inl (List.mem_cons_of_mem _ h)
        · exact Or.inr h

theorem keys_mapSet_nodup (m : List (HexCoord × Tile)) (k : HexCoord)
    (v : Tile) (h : (m.map Prod.fst).Nodup) :
    ((mapSet m k v).map Prod.fst).Nodup := by
  induction m with
  | nil => simp [mapSet]
  | cons p rest ih =>
    obtain ⟨k₀, v₀⟩ := p
    rw [List.map_cons, List.nodup_cons] at h
    unfold mapSet
    by_cases h₀ : k₀ = k
    · rw [if_pos h₀, List.map_cons, List.nodup_cons]
      exact ⟨h₀ ▸ h.1, h.2⟩
    · rw [if_neg h₀, List.map_cons, List.nodup_cons]
      refine ⟨?_, ih h.2⟩
      intro hk₀
      rcases keys_mapSet_mem rest k v k₀ hk₀ with hmem | heq
      · exact h.1 hmem
      · exact h₀ heq

theorem foldl_mapSet_keys_nodup (L : List HexCoord) :
    ∀ (m : List (HexCoord × Tile)), (m.map Prod.fst).Nodup →
      ((L.foldl (fun acc c => mapSet acc c (newTile c)) m).map Prod.fst).Nodup := by
  induction L with
  | nil => intro m h; exact h
  | cons x xs ih =>
    intro m h
    rw [List.foldl_cons]
    exact ih _ (keys_mapSet_nodup m x (newTile x) h)

/-- Claim C8: a freshly initialized Grid has exactly one Cell per coordinate
`(q, r)` with `r ∈ [0, height)` and `q ∈ [-floor(r/2), width - floor(r/2))`,
each a default cell (Grass terrain, Flat modifier, all other fields at their
none/empty values, per `new Tile(coord)`); lookup of any coordinate outside
that region is not-found (`none`), never a default-valued cell. -/
theorem initializeEmptyMap_region (width height : Nat) (name : String) :
    (∀ q r : Int,
      (GameMap.create width height name).getTile ⟨q, r⟩ =
        if 0 ≤ r ∧ r < height ∧ -(r / 2) ≤ q ∧ q < width - r / 2
        then some (newTile ⟨q, r⟩) else none) ∧
    MapKeysNodup (GameMap.create width height name) := by
  constructor
  · intro q r
    show mapGet (initTiles width height) ⟨q, r⟩ = _
    unfold initTiles
    rw [mapGet_foldl_newTile]
    by_cases hc : (⟨q, r⟩ : HexCoord) ∈ initCoords width height
    · rw [if_pos hc, if_pos ((mem_initCoords width height q r).mp hc)]
    · rw [if_neg hc,
        if_neg (fun h => hc ((mem_initCoords width height q r).mpr h))]
      rfl
  · show ((initTiles width height).map Prod.fst).Nodup
    unfold initTiles
    exact foldl_mapSet_keys_nodup _ [] (by simp)

-- ===========================================================================
-- Claim C3
-- ===========================================================================

theorem mapGet_mem (m : List (HexCoord × Tile)) (k : HexCoord) (v : Tile)
    (h : mapGet m k = some v) : (k, v) ∈ m := by
  induction m with
  | nil => exact absurd h (by simp [mapGet])
  | cons p rest ih =>
    obtain ⟨k₀, v₀⟩ := p
    unfold mapGet at h
    by_cases h₀ : k₀ = k
    · rw [if_pos h₀] at h
      rw [← h₀, ← Option.some.inj h]
      exact List.mem_cons_self _ _
    · rw [if_neg h₀] at h
      exact List.mem_cons_of_mem _ (ih h)

theorem getTile_coord (map : GameMap) (hwf : MapWF map) (c : HexCoord)
    (t : Tile) (h : map.getTile c = some t) : t.coord = c :=
  hwf (c, t) (mapGet_mem map.tiles c t h)

theorem tilesInRange_getTile (map : GameMap) (hwf : MapWF map)
    (cc : HexCoord) (range : Nat) :
    ∀ t ∈ map.getTilesInRange cc range, map.getTile t.coord = some t := by
  intro t ht
  unfold GameMap.getTilesInRange at ht
  rw [List.mem_filterMap] at ht
  obtain ⟨c, _, hc⟩ := ht
  rw [getTile_coord map hwf c t hc]
  exact hc

theorem gtRunningBest_some (total b : Int) :
    AdjacencyEngine.gtRunningBest total (some b) = true ↔ b < total := by
  unfold AdjacencyEngine.gtRunningBest
  simp

theorem bestPlacementStep_eq (map : GameMap) (districtType : DistrictType)
    (t : Tile) (ht : map.getTile t.coord = some t)
    (s : Option (HexCoord × DistrictAdjacencyResult) × Option Int) :
    AdjacencyEngine.bestPlacementStep map districtType s t =
      if AdjacencyEngine.gtRunningBest (potentialScore map districtType t) s.2
      then (some (t.coord, potentialResult map districtType t),
        some (potentialScore map districtType t))
      else s := by
  have hpot :
      (AdjacencyEngine.calculatePotentialAdjacency map t.coord districtType).1
        = some (potentialResult map districtType t) := by
    unfold AdjacencyEngine.calculatePotentialAdjacency potentialResult
    rw [ht]
  unfold AdjacencyEngine.bestPlacementStep
  rw [hpot]
  unfold potentialScore
  cases hp : (DISTRICT_DATA districtType).primaryYieldType <;> simp [hp]

theorem bestFold_spec (map : GameMap) (districtType : DistrictType) :
    ∀ (l : List Tile), (∀ t ∈ l, map.getTile t.coord = some t) →
    ∀ (b₀ : Option (HexCoord × DistrictAdjacencyResult)) (s₀ : Int),
      (l.foldl (AdjacencyEngine.bestPlacementStep map districtType) (b₀, some s₀)
          = (b₀, some s₀) ∧
        ∀ t ∈ l, potentialScore map districtType t ≤ s₀) ∨
      (∃ pre t post, l = pre ++ t :: post ∧
        l.foldl (AdjacencyEngine.bestPlacementStep map districtType) (b₀, some s₀)
          = (some (t.coord, potentialResult map districtType t),
             some (potentialScore map districtType t)) ∧
        s₀ < potentialScore map districtType t ∧
        (∀ u ∈ pre,
          potentialScore map districtType u < potentialScore map districtType t) ∧
        (∀ u ∈ post,
          potentialScore map districtType u ≤ potentialScore map districtType t)) := by
  intro l
  induction l with
  | nil =>
    intro _ b₀ s₀
    left
    exact ⟨rfl, fun t ht => absurd ht (List.not_mem_nil t)⟩
  | cons x xs ih =>
    intro hl b₀ s₀
    have hx := hl x (List.mem_cons_self x xs)
    have hxs : ∀ t ∈ xs, map.getTile t.coord = some t :=
      fun t ht => hl t (List.mem_cons_of_mem x ht)
    rw [List.foldl_cons, bestPlacementStep_eq map districtType x hx]
    by_cases hgt : s₀ < potentialScore map districtType x
    · rw [if_pos ((gtRunningBest_some _ _).mpr hgt)]
      rcases ih hxs (some (x.coord, potentialResult map districtType x))
          (potentialScore map districtType x) with ⟨heq, hle⟩ |
          ⟨pre, t, post, hsplit, heq, hlt, hpre, hpost⟩
      · right
        exact ⟨[], x, xs, rfl, heq, hgt,
          fun u hu => absurd hu (List.not_mem_nil u), hle⟩
      · right
        refine ⟨x :: pre, t, post, by rw [hsplit, List.cons_append], heq,
          lt_trans hgt hlt, ?_, hpost⟩
        intro u hu
        rcases List.mem_cons.mp hu with rfl | hu
        · exact hlt
        · exact hpre u hu
    · rw [if_neg (fun hc => hgt ((gtRunningBest_some _ _).mp hc))]
      rcases ih hxs b₀ s₀ with ⟨heq, hle⟩ |
          ⟨pre, t, post, hsplit, heq, hlt, hpre, hpost⟩
      · left
        refine ⟨heq, ?_⟩
        intro u hu
        rcases List.mem_cons.mp hu with rfl | hu
        · exact le_of_not_lt hgt
        · exact hle u hu
      · right
        refine ⟨x :: pre, t, post, by rw [hsplit, List.cons_append], heq, hlt, ?_, hpost⟩
        intro u hu
        rcases List.mem_cons.mp hu with rfl | hu
        · exact lt_of_le_of_lt (le_of_not_lt hgt) hlt
        · exact hpre u hu

theorem bestFold_init (map : GameMap) (districtType : DistrictType)
    (l : List Tile) (hl : ∀ t ∈ l, map.getTile t.coord = some t) :
    (l = [] ∧ l.foldl (AdjacencyEngine.bestPlacementStep map districtType)
        (none, none) = (none, none)) ∨
    (∃ pre t post, l = pre ++ t :: post ∧
      l.foldl (AdjacencyEngine.bestPlacementStep map districtType) (none, none)
        = (some (t.coord, potentialResult map districtType t),
           some (potentialScore map districtType t)) ∧
      (∀ u ∈ pre,
        potentialScore map districtType u < potentialScore map districtType t) ∧
      (∀ u ∈ post,
        potentialScore map districtType u ≤ potentialScore map districtType t)) := by
  cases l with
  | nil => left; exact ⟨rfl, rfl⟩
  | cons x xs =>
    right
    have hx := hl x (List.mem_cons_self x xs)
    have hxs : ∀ t ∈ xs, map.getTile t.coord = some t :=
      fun t ht => hl t (List.mem_cons_of_mem x ht)
    have hcond : AdjacencyEngine.gtRunningBest (potentialScore map districtType x)
        ((none, none) :
          Option (HexCoord × DistrictAdjacencyResult) × Option Int).2 = true := rfl
    rw [List.foldl_cons, bestPlacementStep_eq map districtType x hx, if_pos hcond]
    rcases bestFold_spec map districtType xs hxs
        (some (x.coord, potentialResult map districtType x))
        (potentialScore map districtType x) with ⟨heq, hle⟩ |
        ⟨pre, t, post, hsplit, heq, hlt, hpre, hpost⟩
    · exact ⟨[], x, xs, rfl, heq,
        fun u hu => absurd hu (List.not_mem_nil u), hle⟩
    · refine ⟨x :: pre, t, post, by rw [hsplit, List.cons_append], heq, ?_, hpost⟩
      intro u hu
      rcases List.mem_cons.mp hu with rfl | hu
      · exact hlt
      · exact hpre u hu

/-- Claim C3: `findBestDistrictPlacement` returns not-found exactly when no
candidate within range 3 is eligible (rather than raising an error); and a
returned coordinate always holds a cell from the Grid that is not Mountain,
not already districted, and passes the district's terrain eligibility; among
eligible candidates the winner is the first one in the loop's iteration
order whose primary-yield score strictly exceeds every earlier candidate's
and is not exceeded by any later candidate — i.e. the first candidate
attaining the maximum (strict greater-than against the running best). -/
theorem findBestDistrictPlacement_spec (map : GameMap) (cityCenter : HexCoord)
    (districtType : DistrictType) (hwf : MapWF map) :
    (AdjacencyEngine.findBestDistrictPlacement map cityCenter districtType = none
      ↔ validPlacementTiles map cityCenter districtType = []) ∧
    (∀ (c : HexCoord) (res : DistrictAdjacencyResult),
      AdjacencyEngine.findBestDistrictPlacement map cityCenter districtType
        = some (c, res) →
      ∃ pre t post,
        validPlacementTiles map cityCenter districtType = pre ++ t :: post ∧
        t.coord = c ∧ res = potentialResult map districtType t ∧
        map.getTile c = some t ∧
        t.hasDistrict = false ∧ t.isMountain = false ∧
        AdjacencyEngine.canPlaceDistrict t districtType = true ∧
        (∀ u ∈ pre,
          potentialScore map districtType u < potentialScore map districtType t) ∧
        (∀ u ∈ post,
          potentialScore map districtType u ≤ potentialScore map districtType t)) := by
  have hvalid : ∀ t ∈ validPlacementTiles map cityCenter districtType,
      map.getTile t.coord = some t := by
    intro t ht
    exact tilesInRange_getTile map hwf cityCenter 3 t (List.mem_of_mem_filter ht)
  have hfind : AdjacencyEngine.findBestDistrictPlacement map cityCenter districtType
      = ((validPlacementTiles map cityCenter districtType).foldl
          (AdjacencyEngine.bestPlacementStep map districtType) (none, none)).1 := rfl
  rcases bestFold_init map districtType _ hvalid with ⟨hemp, heq⟩ |
      ⟨pre, t, post, hsplit, heq, hpre, hpost⟩
  · constructor
    · rw [hfind, heq]
      simp [hemp]
    · intro c res h
      rw [hfind, heq] at h
      exact absurd h (by simp)
  · constructor
    · rw [hfind, heq, hsplit]
      simp
    · intro c res h
      rw [hfind, heq] at h
      simp only [Option.some.injEq, Prod.mk.injEq] at h
      obtain ⟨hc, hres⟩ := h
      have htmem : t ∈ validPlacementTiles map cityCenter districtType := by
        rw [hsplit]
        exact List.mem_append_right _ (List.mem_cons_self _ _)
      have hget := hvalid t htmem
      have hfilt := (List.mem_filter.mp htmem).2
      simp only [Bool.and_eq_true, Bool.not_eq_true'] at hfilt
      refine ⟨pre, t, post, hsplit, hc, hres.symm, ?_, hfilt.1.1, hfilt.1.2,
        hfilt.2, hpre, hpost⟩
      rw [← hc]
      exact hget

/-- Claim C3, witness: on the concrete example map the not-found/no-candidate
equivalence holds, and the candidate list is non-empty (so the search finds a
placement). -/
theorem findBestDistrictPlacement_spec_witness :
    (AdjacencyEngine.findBestDistrictPlacement exampleMap ⟨1, 1⟩ .CAMPUS = none
      ↔ validPlacementTiles exampleMap ⟨1, 1⟩ .CAMPUS = []) ∧
    validPlacementTiles exampleMap ⟨1, 1⟩ .CAMPUS ≠ [] :=
  ⟨(findBestDistrictPlacement_spec exampleMap ⟨1, 1⟩ .CAMPUS (by decide)).1,
    by decide⟩

end DistrictSim
